import Mathlib

/-!
Verification of the market-alert alerting engine against its specification.

The development shallowly embeds the relevant TypeScript modules:
numbers are modelled by the rationals, epoch-millisecond timestamps by
integers, database tables by lists of rows, and the nondeterministic
environment (HTTP fetch outcomes, Math.random draws, the SHA-256 digest)
by explicit function parameters.  Thrown JavaScript exceptions are
modelled with the Except monad.
-/

namespace MarketAlert

/-! ## Shared data model (src/db/repo.ts, src/lib/compute.ts) -/

/-- Delivery status of a ledger row: the AlertStatus union type of repo.ts. -/
inductive AlertStatus where
  | SENT
  | SKIPPED
  | FAILED
deriving DecidableEq, Repr

/-- The AlertDirection union type of compute.ts. -/
inductive AlertDirection where
  | UP
  | DOWN
deriving DecidableEq, Repr

/-! ## compute.ts (pure helpers of the legacy pipeline) -/

/-- calculatePercentChange from compute.ts: (current - previous) / previous,
returning 0 when previous is 0. -/
def calculatePercentChange (previous current : ℚ) : ℚ :=
  if previous = 0 then 0 else (current - previous) / previous

/-- getDirection from compute.ts: UP when the change is nonnegative. -/
def getDirection (changePercent : ℚ) : AlertDirection :=
  if 0 ≤ changePercent then .UP else .DOWN

/-- shouldTriggerAlert from compute.ts. -/
def shouldTriggerAlert (changePercent thresholdPercent : ℚ) : Bool :=
  |changePercent| ≥ |thresholdPercent|

/-- isWithinCooldown from compute.ts.  The source tests a falsy
lastWindowEnd (null or 0) and otherwise compares the window-end gap
against cooldownMinutes converted to milliseconds. -/
def isWithinCooldown (lastWindowEnd : Option ℤ) (nextWindowEnd : ℤ)
    (cooldownMinutes : ℤ) : Bool :=
  match lastWindowEnd with
  | none => false
  | some l => if l = 0 then false else nextWindowEnd - l < cooldownMinutes * 60 * 1000

/-- The PriceWindow record of compute.ts. -/
structure PriceWindow where
  previousClose : ℚ
  currentClose : ℚ
  windowStart : ℤ
  windowEnd : ℤ
deriving DecidableEq, Repr

/-- A raw market candle, as consumed by toPriceWindow of compute.ts. -/
structure Candle where
  openTime : ℤ
  closeTime : ℤ
  close : ℚ
deriving DecidableEq, Repr

/-- toPriceWindow from compute.ts: the last two candles give previous and
current close; fewer than 2 candles yields null. -/
def toPriceWindow (candles : List Candle) : Option PriceWindow :=
  if h : candles.length < 2 then none
  else
    let previous := candles.get ⟨candles.length - 2, by omega⟩
    let current := candles.get ⟨candles.length - 1, by omega⟩
    some { previousClose := previous.close, currentClose := current.close,
           windowStart := current.openTime, windowEnd := current.closeTime }

/-! ## webhook.ts (delivery with retries)

sendWebhook is driven by two oracles: `outcomes i` is what the i-th
(0-based) fetch attempt does, and `jitter i` is the Math.random() draw
used for the backoff delay scheduled after the i-th attempt. -/

/-- What one fetch attempt does, as observed inside sendWebhook's try
block: either the promise resolves to an HTTP response (any status),
or it rejects (transport error, or abort on timeout) with an Error
carrying the given message. -/
inductive FetchOutcome where
  | response (status : ℕ) (body : String)
  | failure (msg : String)
deriving DecidableEq, Repr

/-- response.ok of the Fetch API: status in the inclusive range 200-299. -/
def statusOk (status : ℕ) : Bool :=
  decide (200 ≤ status ∧ status ≤ 299)

/-- Whether an attempt outcome is a 2xx response. -/
def FetchOutcome.isOk : FetchOutcome → Bool
  | .response s _ => statusOk s
  | .failure _ => false

/-- The WebhookOptions record of webhook.ts.  maxRetries is an arbitrary
JavaScript number here modelled as an integer (loadEnv validates it to
be at least 1, but sendWebhook itself accepts anything). -/
structure WebhookOptions where
  timeoutMs : ℚ
  maxRetries : ℤ
  backoffBaseMs : ℚ
deriving DecidableEq, Repr

/-- The WebhookResult record of webhook.ts; absent optional fields are
none. -/
structure WebhookResult where
  success : Bool
  status : Option ℕ
  body : Option String
  attempts : ℕ
  error : Option String
deriving DecidableEq, Repr

/-- shouldRetry from webhook.ts: a truthy error always retries, a falsy
status (absent, or 0) never does, and otherwise retry exactly on 5xx. -/
def shouldRetry (status : Option ℕ) (error : Option String) : Bool :=
  if error.isSome then true
  else
    match status with
    | none => false
    | some s => if s = 0 then false else decide (500 ≤ s)

/-- The error message sendWebhook constructs for a non-ok response. -/
def nonOkMessage (status : ℕ) : String :=
  "Webhook responded with status " ++ toString status

/-- The failure result built after the while loop of sendWebhook:
lastError is always an Error when present, so the message defaults to
"Unknown error" only when no attempt was ever made. -/
def failResult (lastStatus : Option ℕ) (lastBody : Option String)
    (attempts : ℕ) (lastError : Option String) : WebhookResult :=
  { success := false, status := lastStatus, body := lastBody,
    attempts := attempts, error := some (lastError.getD "Unknown error") }

/-- The body of sendWebhook's while loop.  `attempt` is the number of
attempts already completed (the source variable before its increment),
and `fuel` bounds the remaining iterations; the caller passes
fuel = maxRetries.toNat so that the guard attempt < maxRetries coincides
with fuel > 0.  Returns the result together with the list of backoff
delays actually awaited, in order. -/
def sendWebhookGo (outcomes : ℕ → FetchOutcome) (jitter : ℕ → ℚ)
    (opts : WebhookOptions) (attempt : ℕ) (lastStatus : Option ℕ)
    (lastBody : Option String) (lastError : Option String) :
    ℕ → WebhookResult × List ℚ
  | 0 => (failResult lastStatus lastBody attempt lastError, [])
  | fuel + 1 =>
    match outcomes attempt with
    | .response s b =>
      if statusOk s then
        ({ success := true, status := some s, body := some b,
           attempts := attempt + 1, error := none }, [])
      else
        if ((attempt : ℤ) + 1 < opts.maxRetries) ∧
            shouldRetry (some s) (some (nonOkMessage s)) then
          ((sendWebhookGo outcomes jitter opts (attempt + 1)
              (some s) (some b) (some (nonOkMessage s)) fuel).1,
           (opts.backoffBaseMs * 2 ^ attempt +
              jitter attempt * max 50 (opts.backoffBaseMs / 2)) ::
             (sendWebhookGo outcomes jitter opts (attempt + 1)
               (some s) (some b) (some (nonOkMessage s)) fuel).2)
        else
          (failResult (some s) (some b) (attempt + 1) (some (nonOkMessage s)), [])
    | .failure msg =>
      if ((attempt : ℤ) + 1 < opts.maxRetries) ∧
          shouldRetry lastStatus (some msg) then
        ((sendWebhookGo outcomes jitter opts (attempt + 1)
            lastStatus lastBody (some msg) fuel).1,
         (opts.backoffBaseMs * 2 ^ attempt +
            jitter attempt * max 50 (opts.backoffBaseMs / 2)) ::
           (sendWebhookGo outcomes jitter opts (attempt + 1)
             lastStatus lastBody (some msg) fuel).2)
      else
        (failResult lastStatus lastBody (attempt + 1) (some msg), [])

/-- sendWebhook from webhook.ts, abstracted over the fetch outcomes and
the Math.random draws.  Returns the result and the backoff delays. -/
def sendWebhook (outcomes : ℕ → FetchOutcome) (jitter : ℕ → ℚ)
    (opts : WebhookOptions) : WebhookResult × List ℚ :=
  sendWebhookGo outcomes jitter opts 0 none none none opts.maxRetries.toNat

/-! ## volume-analysis.ts (volume statistics) -/

/-- calculateVolumeChangePercent from volume-analysis.ts (in percent
units, 0 when the previous volume is 0). -/
def calculateVolumeChangePercent (currentVolume previousVolume : ℚ) : ℚ :=
  if previousVolume = 0 then 0 else
    (currentVolume - previousVolume) / previousVolume * 100

/-- calculateVolumeRatioValue: the currentVolume / averageVolume quotient
computed by volume-analysis.ts, 0 when the average is 0. -/
def calculateVolumeRatioValue (currentVolume averageVolume : ℚ) : ℚ :=
  if averageVolume = 0 then 0 else currentVolume / averageVolume

/-- calculateZScore from volume-analysis.ts: (current - mean) / stdDev,
0 when the standard deviation is 0. -/
def calculateZScore (currentVolume meanVolume stdDevVolume : ℚ) : ℚ :=
  if stdDevVolume = 0 then 0 else (currentVolume - meanVolume) / stdDevVolume

/-- The population variance computed inside calculateStandardDeviation of
volume-analysis.ts (0 for an empty series). -/
def varianceOf (volumes : List ℚ) : ℚ :=
  if volumes.length = 0 then 0
  else
    ((volumes.map (fun v => (v - volumes.sum / volumes.length) ^ 2)).sum) /
      volumes.length

/-- Characterizes the return value of calculateStandardDeviation:
the source computes Math.sqrt of the variance, i.e. the unique
nonnegative square root.  (The square root itself is irrational in
general, so it is carried as a parameter constrained by this predicate.) -/
def isStdDev (volumes : List ℚ) (sigma : ℚ) : Prop :=
  0 ≤ sigma ∧ sigma ^ 2 = varianceOf volumes

/-- The averageVolume computed by analyzeVolume of volume-analysis.ts:
sum of the historical volumes divided by max(length, 1). -/
def averageVolume (historicalVolumes : List ℚ) : ℚ :=
  historicalVolumes.sum / max historicalVolumes.length 1

/-- The VolumeAnalysis record of src/types.ts. -/
structure VolumeAnalysis where
  currentVolume : ℚ
  previousVolume : ℚ
  changePercent : ℚ
  avgVolume : ℚ
  volRatioValue : ℚ
  isAbnormal : Bool
  zScore : ℚ
  surge : Bool
  spike : Bool
deriving DecidableEq, Repr

/-- analyzeVolume from volume-analysis.ts.  stdDevVolume is the value of
calculateStandardDeviation(historicalVolumes), passed explicitly and
constrained by isStdDev in the theorems (the source takes its square
root through Math.sqrt). -/
def analyzeVolume (currentVolume : ℚ) (historicalVolumes : List ℚ)
    (stdDevVolume : ℚ) : VolumeAnalysis :=
  let previousVolume := (historicalVolumes.getLast?).getD 0
  let avg := averageVolume historicalVolumes
  let changePercent := calculateVolumeChangePercent currentVolume previousVolume
  let ratioV := calculateVolumeRatioValue currentVolume avg
  let z := calculateZScore currentVolume avg stdDevVolume
  { currentVolume := currentVolume, previousVolume := previousVolume,
    changePercent := changePercent, avgVolume := avg, volRatioValue := ratioV,
    isAbnormal := |z| ≥ 2, zScore := z, surge := ratioV ≥ 2, spike := ratioV ≥ 3 }

/-! ## multi-indicator-monitor.ts (indicator evaluation) -/

/-- A raw OHLCV kline as consumed by MultiIndicatorMonitor (the `open`
field is renamed openPrice, `open` being reserved in Lean). -/
structure Kline where
  timestamp : ℤ
  openPrice : ℚ
  high : ℚ
  low : ℚ
  close : ℚ
  volume : ℚ
deriving DecidableEq, Repr

/-- The PriceAnalysis record of src/types.ts. -/
structure PriceAnalysis where
  openPrice : ℚ
  high : ℚ
  low : ℚ
  close : ℚ
  change : ℚ
  changePercent : ℚ
  volume : ℚ
  direction : String
deriving DecidableEq, Repr

/-- Junk kline standing for the undefined JavaScript array access; the
callers guard klines.length ≥ 2 so it is never observed there. -/
def dfltKline : Kline := ⟨0, 0, 0, 0, 0, 0⟩

/-- MultiIndicatorMonitor.analyzePrice: change percent is measured from
the FIRST kline's open to the last kline's close, in percent units, with
no division-by-zero guard.  High/low/volume aggregate the whole list. -/
def analyzePrice (klines : List Kline) : PriceAnalysis :=
  let currentKline := (klines.getLast?).getD dfltKline
  let previousKline := (klines.head?).getD dfltKline
  let o := previousKline.openPrice
  let c := currentKline.close
  let change := c - o
  { openPrice := o,
    high := (klines.map Kline.high).foldr max 0,
    low := (klines.map Kline.low).foldr min 0,
    close := c,
    change := change,
    changePercent := change / o * 100,
    volume := (klines.map Kline.volume).sum,
    direction := if 0 ≤ change then "UP" else "DOWN" }

/-- The MarketAnalysis record of src/types.ts (price plus volume view of
one evaluation window). -/
structure MarketAnalysis where
  symbol : String
  price : PriceAnalysis
  volume : VolumeAnalysis
  windowStart : ℤ
  windowEnd : ℤ
  windowMinutes : ℤ
deriving DecidableEq, Repr

/-- MultiIndicatorMonitor.evaluateCondition: the configured operator
string compared with an epsilon of 1e-4 for equality, unknown operators
never matching. -/
def evaluateCondition (actualValue thresholdValue : ℚ) (op : String) : Bool :=
  if op = ">" then actualValue > thresholdValue
  else if op = ">=" then actualValue ≥ thresholdValue
  else if op = "<" then actualValue < thresholdValue
  else if op = "<=" then actualValue ≤ thresholdValue
  else if op = "=" then |actualValue - thresholdValue| < 1 / 10000
  else if op = "!=" then |actualValue - thresholdValue| ≥ 1 / 10000
  else false

/-- MultiIndicatorMonitor.checkIndicatorTrigger reduced to its observed
value and trigger verdict: the switch over the indicator type name,
with the default case yielding value 0 and triggered = false. -/
def checkIndicatorTrigger (indicatorTypeName : String)
    (thresholdValue : ℚ) (op : String) (analysis : MarketAnalysis) :
    ℚ × Bool :=
  if indicatorTypeName = "price_change_percent" then
    let v := |analysis.price.changePercent|
    (v, evaluateCondition v thresholdValue op)
  else if indicatorTypeName = "volume_change_percent" then
    let v := |analysis.volume.changePercent|
    (v, evaluateCondition v thresholdValue op)
  else if indicatorTypeName = "volume_surge" then
    let v := analysis.volume.volRatioValue
    (v, evaluateCondition v thresholdValue op)
  else if indicatorTypeName = "volume_spike" then
    let v := analysis.volume.volRatioValue
    (v, evaluateCondition v thresholdValue op)
  else if indicatorTypeName = "abnormal_volume" then
    let v := |analysis.volume.zScore|
    (v, evaluateCondition v thresholdValue op)
  else if indicatorTypeName = "price_volume_divergence" then
    let divergence := (analysis.price.direction = "UP" ∧ analysis.volume.changePercent < 0) ∨
      (analysis.price.direction = "DOWN" ∧ analysis.volume.changePercent > 0)
    let v : ℚ := if divergence then 1 else 0
    (v, evaluateCondition v thresholdValue op)
  else
    (0, false)

/-- The six indicator type names recognized by checkIndicatorTrigger. -/
def recognizedIndicatorNames : List String :=
  ["price_change_percent", "volume_change_percent", "volume_surge",
   "volume_spike", "abnormal_volume", "price_volume_divergence"]

/-! ## repo.ts: the alerts table (legacy ledger) -/

/-- One row of the alerts table (schema.sql); idempotency_key carries a
UNIQUE constraint. -/
structure AlertRow where
  symbol : String
  change_percent : ℚ
  direction : AlertDirection
  window_start : ℤ
  window_end : ℤ
  idempotency_key : String
  status : AlertStatus
  response_code : Option ℤ
  response_body : Option String
  created_at : String
deriving DecidableEq, Repr

/-- The data argument of recordAlert. -/
structure RecordAlertData where
  symbol : String
  changePercent : ℚ
  direction : AlertDirection
  windowStart : ℤ
  windowEnd : ℤ
  idempotencyKey : String
  status : AlertStatus
  responseCode : Option ℤ
  responseBody : Option String
deriving DecidableEq, Repr

/-- findAlertByIdempotency: SELECT by key.  Under the UNIQUE constraint
at most one row matches, so taking the first match is faithful. -/
def findAlertByIdempotency (table : List AlertRow) (key : String) :
    Option AlertRow :=
  table.find? (fun r => r.idempotency_key == key)

/-- getLatestAlertForSymbol: SELECT where symbol = ? ORDER BY window_end
DESC LIMIT 1.  Ties on window_end are broken arbitrarily by SQLite; the
model keeps the first row attaining the maximum. -/
def getLatestAlertForSymbol (table : List AlertRow) (symbol : String) :
    Option AlertRow :=
  (table.filter (fun r => r.symbol == symbol.toUpper)).foldl
    (fun best r =>
      match best with
      | none => some r
      | some b => if r.window_end > b.window_end then some r else some b)
    none

/-- recordAlert from repo.ts: INSERT OR REPLACE keyed on the UNIQUE
idempotency_key, with created_at taken from the already-present row for
that key when one exists (the COALESCE subquery) and from `nowTime`
otherwise.  SQLite's REPLACE deletes every conflicting row before the
insert. -/
def recordAlert (table : List AlertRow) (d : RecordAlertData)
    (nowTime : String) : List AlertRow :=
  (table.filter (fun r => !(r.idempotency_key == d.idempotencyKey))) ++
    [{ symbol := d.symbol.toUpper, change_percent := d.changePercent,
       direction := d.direction, window_start := d.windowStart,
       window_end := d.windowEnd, idempotency_key := d.idempotencyKey,
       status := d.status, response_code := d.responseCode,
       response_body := d.responseBody,
       created_at :=
         match findAlertByIdempotency table d.idempotencyKey with
         | some r => r.created_at
         | none => nowTime }]

/-- The idempotency keys present in a ledger, in row order. -/
def ledgerKeys (table : List AlertRow) : List String :=
  table.map AlertRow.idempotency_key

/-! ## repo.ts: the alerts_new table (multi-indicator ledger) -/

/-- One row of the alerts_new table
(migrations/002_add_multi_indicator_support.sql); idempotency_key again
carries a UNIQUE constraint. -/
structure AlertNewRow where
  symbol : String
  indicator_type_id : ℤ
  indicator_value : ℚ
  threshold_value : ℚ
  change_percent : Option ℚ
  direction : Option String
  window_start : ℤ
  window_end : ℤ
  window_minutes : ℤ
  idempotency_key : String
  status : AlertStatus
  response_code : Option ℤ
  response_body : Option String
  created_at : String
deriving DecidableEq, Repr

/-- findAlertNewByIdempotency: SELECT from alerts_new by key. -/
def findAlertNewByIdempotency (table : List AlertNewRow) (key : String) :
    Option AlertNewRow :=
  table.find? (fun r => r.idempotency_key == key)

/-- createAlertNew from repo.ts: a plain INSERT (no OR REPLACE), so a
pre-existing row with the same idempotency_key violates the UNIQUE
constraint and the call throws, modelled as Except.error. -/
def createAlertNew (table : List AlertNewRow) (row : AlertNewRow) :
    Except String (List AlertNewRow × AlertNewRow) :=
  if table.any (fun r => r.idempotency_key == row.idempotency_key) then
    .error "UNIQUE constraint failed: alerts_new.idempotency_key"
  else
    .ok (table ++ [{ row with symbol := row.symbol.toUpper }],
         { row with symbol := row.symbol.toUpper })

/-! ## monitor.ts: the legacy trigger pipeline (runMonitor)

What runMonitor consumes from the outside world is abstracted into
per-symbol data: the idempotency key digest function (sha256Hex composed
with the template string; only its determinism matters), the symbol
lookup of the config store, the candle-fetch/window-building outcome and
the webhook delivery outcome. -/

/-- A row of the symbols table (repo.ts SymbolRecord; the fields the
monitor reads). -/
structure SymbolRecord where
  symbol : String
  enabled : ℤ
  threshold_percent : Option ℚ
  cooldown_minutes : Option ℤ
  webhook_url : Option String
deriving DecidableEq, Repr

/-- The MonitorResult record of monitor.ts. -/
structure MonitorResult where
  symbol : String
  status : AlertStatus
  triggered : Bool
  changePercent : Option ℚ
  windowEnd : Option ℤ
  reason : Option String
deriving DecidableEq, Repr

/-- The outcome of fetchEnhancedKlines plus createEnhancedPriceWindow
plus shouldTriggerAlertWithIndicators for one symbol (their sources live
outside the embedded modules, so only their combined output is kept):
the price change percent, the window bounds and the trigger verdict. -/
structure WindowData where
  priceChangePercent : ℚ
  windowStart : ℤ
  windowEnd : ℤ
  shouldTrigger : Bool
deriving DecidableEq, Repr

/-- Per-symbol environment of one runMonitor iteration: the fetch /
window outcome (error = an exception thrown while processing the symbol,
none = fewer than 2 candles) and the sendWebhook outcome used if
delivery is reached. -/
structure SymbolEnv where
  fetch : Except String (Option WindowData)
  webhookSuccess : Bool
  webhookStatus : Option ℤ
  webhookBody : Option String
deriving Repr

/-- Processing of one symbol inside runMonitor's for-loop: resolve
per-symbol threshold/cooldown, fetch and build the window, check the
trigger, then idempotency lookup, cooldown check, delivery and ledger
write, every branch pushing exactly one MonitorResult.  Returns the new
ledger, the result pushed, and how many webhook requests were issued. -/
def processSymbol (genKey : String → ℤ → ℚ → String)
    (thresholdDefault : ℚ) (cooldownDefault : ℤ) (nowTime : String)
    (ledger : List AlertRow) (sym : SymbolRecord) (env : SymbolEnv) :
    List AlertRow × MonitorResult × ℕ :=
  match env.fetch with
  | .error _ =>
    (ledger, { symbol := sym.symbol.toUpper, status := .FAILED,
               triggered := false, changePercent := none, windowEnd := none,
               reason := some "enhanced_fetch_error" }, 0)
  | .ok none =>
    (ledger, { symbol := sym.symbol.toUpper, status := .SKIPPED,
               triggered := false, changePercent := none, windowEnd := none,
               reason := some "insufficient_data" }, 0)
  | .ok (some w) =>
    if !w.shouldTrigger then
      (ledger, { symbol := sym.symbol.toUpper, status := .SKIPPED,
                 triggered := false,
                 changePercent := some w.priceChangePercent,
                 windowEnd := some w.windowEnd,
                 reason := some "below_threshold_or_filters" }, 0)
    else
      match findAlertByIdempotency ledger
          (genKey sym.symbol.toUpper w.windowEnd
            (sym.threshold_percent.getD thresholdDefault)) with
      | some existing =>
        (ledger, { symbol := sym.symbol.toUpper, status := existing.status,
                   triggered := existing.status = .SENT,
                   changePercent := some existing.change_percent,
                   windowEnd := some existing.window_end,
                   reason := some "duplicate" }, 0)
      | none =>
        if isWithinCooldown
            ((getLatestAlertForSymbol ledger sym.symbol.toUpper).map
              AlertRow.window_end) w.windowEnd
            (sym.cooldown_minutes.getD cooldownDefault) then
          (recordAlert ledger
            { symbol := sym.symbol.toUpper,
              changePercent := w.priceChangePercent,
              direction := getDirection w.priceChangePercent,
              windowStart := w.windowStart, windowEnd := w.windowEnd,
              idempotencyKey := genKey sym.symbol.toUpper w.windowEnd
                (sym.threshold_percent.getD thresholdDefault),
              status := .SKIPPED, responseCode := none,
              responseBody := some "cooldown_active" } nowTime,
           { symbol := sym.symbol.toUpper, status := .SKIPPED,
             triggered := false,
             changePercent := some w.priceChangePercent,
             windowEnd := some w.windowEnd,
             reason := some "cooldown_active" }, 0)
        else
          (recordAlert ledger
            { symbol := sym.symbol.toUpper,
              changePercent := w.priceChangePercent,
              direction := getDirection w.priceChangePercent,
              windowStart := w.windowStart, windowEnd := w.windowEnd,
              idempotencyKey := genKey sym.symbol.toUpper w.windowEnd
                (sym.threshold_percent.getD thresholdDefault),
              status := if env.webhookSuccess then .SENT else .FAILED,
              responseCode := env.webhookStatus,
              responseBody := env.webhookBody } nowTime,
           { symbol := sym.symbol.toUpper,
             status := if env.webhookSuccess then .SENT else .FAILED,
             triggered := env.webhookSuccess,
             changePercent := some w.priceChangePercent,
             windowEnd := some w.windowEnd,
             reason := if env.webhookSuccess then none
                       else some "webhook_failed" }, 1)

/-- JavaScript `Array.from(new Set(xs))`: duplicates dropped keeping the
first occurrence, order preserved. -/
def uniqueFirst (l : List String) : List String :=
  l.foldl (fun acc x => if x ∈ acc then acc else acc ++ [x]) []

/-- One step of resolveSymbols' loop over the deduplicated names. -/
def resolveStep (lookup : String → Option SymbolRecord)
    (acc : List SymbolRecord × List MonitorResult) (s : String) :
    List SymbolRecord × List MonitorResult :=
  match lookup s with
  | none =>
    (acc.1, acc.2 ++ [{ symbol := s, status := .SKIPPED,
                        triggered := false, changePercent := none,
                        windowEnd := none,
                        reason := some "symbol_not_found" }])
  | some record =>
    if record.enabled ≠ 1 then
      (acc.1, acc.2 ++ [{ symbol := s, status := .SKIPPED,
                          triggered := false, changePercent := none,
                          windowEnd := none,
                          reason := some "symbol_disabled" }])
    else
      (acc.1 ++ [record], acc.2)

/-- resolveSymbols of monitor.ts on an explicit requested list: normalize
and deduplicate, then split into found (enabled) records and SKIPPED
results for unknown or disabled symbols. -/
def resolveSymbols (lookup : String → Option SymbolRecord)
    (requested : List String) : List SymbolRecord × List MonitorResult :=
  (uniqueFirst (requested.map String.toUpper)).foldl
    (resolveStep lookup) ([], [])

/-- runMonitor's main loop over the resolved symbol records, threading
the ledger and counting webhook requests. -/
def runMonitorLoop (genKey : String → ℤ → ℚ → String)
    (thresholdDefault : ℚ) (cooldownDefault : ℤ) (nowTime : String)
    (envs : String → SymbolEnv) (ledger : List AlertRow) :
    List SymbolRecord → List AlertRow × List MonitorResult × ℕ
  | [] => (ledger, [], 0)
  | sym :: rest =>
    ((runMonitorLoop genKey thresholdDefault cooldownDefault nowTime envs
        (processSymbol genKey thresholdDefault cooldownDefault nowTime
          ledger sym (envs sym.symbol.toUpper)).1 rest).1,
     (processSymbol genKey thresholdDefault cooldownDefault nowTime
        ledger sym (envs sym.symbol.toUpper)).2.1 ::
       (runMonitorLoop genKey thresholdDefault cooldownDefault nowTime envs
         (processSymbol genKey thresholdDefault cooldownDefault nowTime
           ledger sym (envs sym.symbol.toUpper)).1 rest).2.1,
     (processSymbol genKey thresholdDefault cooldownDefault nowTime
        ledger sym (envs sym.symbol.toUpper)).2.2 +
       (runMonitorLoop genKey thresholdDefault cooldownDefault nowTime envs
         (processSymbol genKey thresholdDefault cooldownDefault nowTime
           ledger sym (envs sym.symbol.toUpper)).1 rest).2.2)

/-- runMonitor from monitor.ts, for an explicitly requested symbol list:
resolve, then process each found record in order; the returned results
are the resolution skips followed by one entry per processed symbol. -/
def runMonitor (genKey : String → ℤ → ℚ → String)
    (lookup : String → Option SymbolRecord) (envs : String → SymbolEnv)
    (thresholdDefault : ℚ) (cooldownDefault : ℤ) (nowTime : String)
    (ledger : List AlertRow) (requested : List String) :
    List AlertRow × List MonitorResult × ℕ :=
  ((runMonitorLoop genKey thresholdDefault cooldownDefault nowTime envs
      ledger (resolveSymbols lookup requested).1).1,
   (resolveSymbols lookup requested).2 ++
     (runMonitorLoop genKey thresholdDefault cooldownDefault nowTime envs
       ledger (resolveSymbols lookup requested).1).2.1,
   (runMonitorLoop genKey thresholdDefault cooldownDefault nowTime envs
     ledger (resolveSymbols lookup requested).1).2.2)

/-! ## monitor.ts: the multi-indicator pipeline (runMultiIndicatorMonitor) -/

/-- The MultiIndicatorResult record of monitor.ts (the alertId field is
omitted: the modelled rows carry no AUTOINCREMENT id). -/
structure MultiResult where
  symbol : String
  indicatorType : String
  indicatorDisplayName : String
  status : AlertStatus
  triggered : Bool
  indicatorValue : ℚ
  thresholdValue : ℚ
  direction : Option String
  windowEnd : Option ℤ
  reason : Option String
deriving DecidableEq, Repr

/-- MultiIndicatorMonitor.generateIdempotencyKey: the template string
symbol-indicatorType-windowEnd-thresholdValue-operator. -/
def generateIdempotencyKeyNew (symbol indicatorType : String)
    (windowEnd : ℤ) (thresholdValue : ℚ) (op : String) : String :=
  symbol ++ "-" ++ indicatorType ++ "-" ++ toString windowEnd ++ "-" ++
    toString thresholdValue ++ "-" ++ op

/-- MultiIndicatorMonitor.checkCooldown as written in the source: a falsy
cooldownMinutes (0) returns false at once; otherwise the method invokes
getLatestAlertNewForSymbol(symbol, indicatorType) WITHOUT the leading db
handle the function requires, so the string ends up where the database
belongs and the lookup throws a TypeError before reading anything. -/
def checkCooldown (cooldownMinutes : ℤ) : Except String Bool :=
  if cooldownMinutes = 0 then .ok false
  else .error "TypeError: symbol.prepare is not a function"

/-- One triggered indicator as handed to the delivery loop of
runMultiIndicatorMonitor, together with the webhook outcome its delivery
would observe.  indicatorCooldown is trigger.indicatorType.cooldown_minutes
(absent for rows of the indicator_types table). -/
structure TriggerData where
  name : String
  typeId : ℤ
  displayName : String
  indicatorValue : ℚ
  thresholdValue : ℚ
  op : String
  direction : String
  indicatorCooldown : Option ℤ
  webhookSuccess : Bool
  webhookStatus : Option ℤ
  webhookBody : Option String
deriving DecidableEq, Repr

/-- The outcome of fetchEnhancedKlines + analyzeMarket +
checkAlertTriggers for one symbol of the multi pipeline: window bounds,
the price change percent of the analysis, and the triggered indicators
in configuration order. -/
structure MultiAnalysisData where
  windowStart : ℤ
  windowEnd : ℤ
  changePercent : ℚ
  triggers : List TriggerData
deriving Repr

/-- Per-symbol environment of one runMultiIndicatorMonitor iteration
(error = an exception thrown while processing the symbol, none = fewer
than 2 klines). -/
structure MultiSymbolEnv where
  fetch : Except String (Option MultiAnalysisData)
deriving Repr

/-- Processing of one triggered indicator inside runMultiIndicatorMonitor:
resolve the cooldown, run checkCooldown (which throws the moment the
cooldown is nonzero, see checkCooldown), on a cooldown hit record a
SKIPPED row, otherwise idempotency lookup, delivery and ledger insert.
An Except.error propagates to the symbol's catch block. -/
def processTrigger (windowMinutes : ℤ) (cooldownDefault : ℤ)
    (nowTime : String) (ledger : List AlertNewRow) (sym : SymbolRecord)
    (a : MultiAnalysisData) (t : TriggerData) :
    Except String (List AlertNewRow × MultiResult × ℕ) := do
  let cooldownMinutes :=
    (t.indicatorCooldown.orElse (fun _ => sym.cooldown_minutes)).getD
      cooldownDefault
  let inCooldown ← checkCooldown cooldownMinutes
  if inCooldown then
    let inserted ← createAlertNew ledger
      { symbol := sym.symbol, indicator_type_id := t.typeId,
        indicator_value := t.indicatorValue,
        threshold_value := t.thresholdValue,
        change_percent := some a.changePercent,
        direction := some t.direction, window_start := a.windowStart,
        window_end := a.windowEnd, window_minutes := windowMinutes,
        idempotency_key := generateIdempotencyKeyNew sym.symbol t.name
          a.windowEnd t.thresholdValue t.op,
        status := .SKIPPED, response_code := none, response_body := none,
        created_at := nowTime }
    .ok (inserted.1,
      { symbol := sym.symbol, indicatorType := t.name,
        indicatorDisplayName := t.displayName, status := .SKIPPED,
        triggered := false, indicatorValue := t.indicatorValue,
        thresholdValue := t.thresholdValue, direction := some "COOLDOWN",
        windowEnd := some a.windowEnd, reason := some "cooldown_active" }, 0)
  else
    let idempotencyKey := generateIdempotencyKeyNew sym.symbol t.name
      a.windowEnd t.thresholdValue t.op
    match findAlertNewByIdempotency ledger idempotencyKey with
    | some existingAlert =>
      .ok (ledger,
        { symbol := sym.symbol, indicatorType := t.name,
          indicatorDisplayName := t.displayName,
          status := existingAlert.status,
          triggered := existingAlert.status = .SENT,
          indicatorValue := t.indicatorValue,
          thresholdValue := t.thresholdValue, direction := none,
          windowEnd := some a.windowEnd, reason := some "duplicate" }, 0)
    | none =>
      let status : AlertStatus :=
        if t.webhookSuccess then .SENT else .FAILED
      let inserted ← createAlertNew ledger
        { symbol := sym.symbol, indicator_type_id := t.typeId,
          indicator_value := t.indicatorValue,
          threshold_value := t.thresholdValue,
          change_percent := some a.changePercent,
          direction := some t.direction, window_start := a.windowStart,
          window_end := a.windowEnd, window_minutes := windowMinutes,
          idempotency_key := idempotencyKey, status := status,
          response_code := t.webhookStatus, response_body := t.webhookBody,
          created_at := nowTime }
      .ok (inserted.1,
        { symbol := sym.symbol, indicatorType := t.name,
          indicatorDisplayName := t.displayName, status := status,
          triggered := t.webhookSuccess, indicatorValue := t.indicatorValue,
          thresholdValue := t.thresholdValue, direction := some t.direction,
          windowEnd := some a.windowEnd,
          reason := if t.webhookSuccess then none
                    else some "webhook_failed" }, 1)

/-- The FAILED result pushed by runMultiIndicatorMonitor's catch block. -/
def multiFailedResult (sym : SymbolRecord) : MultiResult :=
  { symbol := sym.symbol, indicatorType := "N/A",
    indicatorDisplayName := "N/A", status := .FAILED, triggered := false,
    indicatorValue := 0, thresholdValue := 0, direction := none,
    windowEnd := none, reason := some "monitor_error" }

/-- The delivery loop over the triggered indicators of one symbol: each
trigger is processed in order; the first thrown exception aborts the
remaining triggers and lands in the catch block, which appends the
symbol's FAILED monitor_error entry after the results already pushed. -/
def processTriggersLoop (windowMinutes : ℤ) (cooldownDefault : ℤ)
    (nowTime : String) (sym : SymbolRecord) (a : MultiAnalysisData)
    (ledger : List AlertNewRow) :
    List TriggerData → List AlertNewRow × List MultiResult × ℕ
  | [] => (ledger, [], 0)
  | t :: ts =>
    match processTrigger windowMinutes cooldownDefault nowTime ledger sym a t with
    | .error _ => (ledger, [multiFailedResult sym], 0)
    | .ok (ledger', r, calls) =>
      ((processTriggersLoop windowMinutes cooldownDefault nowTime sym a
          ledger' ts).1,
       r :: (processTriggersLoop windowMinutes cooldownDefault nowTime sym a
         ledger' ts).2.1,
       calls + (processTriggersLoop windowMinutes cooldownDefault nowTime
         sym a ledger' ts).2.2)

/-- Processing of one symbol inside runMultiIndicatorMonitor: fetch and
analyze, handle insufficient data and the no-trigger case, then run the
delivery loop; a thrown exception is caught and surfaced as the symbol's
FAILED monitor_error entry. -/
def processSymbolMulti (windowMinutes : ℤ) (cooldownDefault : ℤ)
    (nowTime : String) (ledger : List AlertNewRow) (sym : SymbolRecord)
    (env : MultiSymbolEnv) : List AlertNewRow × List MultiResult × ℕ :=
  match env.fetch with
  | .error _ => (ledger, [multiFailedResult sym], 0)
  | .ok none =>
    (ledger, [{ symbol := sym.symbol, indicatorType := "N/A",
                indicatorDisplayName := "N/A", status := .SKIPPED,
                triggered := false, indicatorValue := 0, thresholdValue := 0,
                direction := none, windowEnd := none,
                reason := some "insufficient_data" }], 0)
  | .ok (some a) =>
    match a.triggers with
    | [] =>
      (ledger, [{ symbol := sym.symbol, indicatorType := "ALL",
                  indicatorDisplayName := "ALL", status := .SKIPPED,
                  triggered := false, indicatorValue := 0,
                  thresholdValue := 0, direction := some "NONE",
                  windowEnd := some a.windowEnd,
                  reason := some "no_triggers" }], 0)
    | t :: ts =>
      processTriggersLoop windowMinutes cooldownDefault nowTime sym a ledger
        (t :: ts)

/-! ## Helper lemmas about sendWebhook -/

/-- The attempt counter of the loop never exceeds the available fuel. -/
theorem sendWebhookGo_attempts_le (outcomes : ℕ → FetchOutcome)
    (jitter : ℕ → ℚ) (opts : WebhookOptions) :
    ∀ fuel attempt ls lb le,
      (sendWebhookGo outcomes jitter opts attempt ls lb le fuel).1.attempts ≤
        attempt + fuel := by
  intro fuel
  induction fuel with
  | zero =>
    intro attempt ls lb le
    simp [sendWebhookGo, failResult]
  | succ fuel ih =>
    intro attempt ls lb le
    cases houtcome : outcomes attempt with
    | response s b =>
      by_cases hok : statusOk s
      · simp [sendWebhookGo, houtcome, hok]
      · by_cases hc : ((attempt : ℤ) + 1 < opts.maxRetries) ∧
          shouldRetry (some s) (some (nonOkMessage s)) = true
        · simp only [sendWebhookGo, houtcome, hok, Bool.false_eq_true,
            if_false, if_pos hc]
          exact (ih _ _ _ _).trans (by omega)
        · simp only [sendWebhookGo, houtcome, hok, Bool.false_eq_true,
            if_false, if_neg hc, failResult]
          omega
    | failure msg =>
      by_cases hc : ((attempt : ℤ) + 1 < opts.maxRetries) ∧
        shouldRetry ls (some msg) = true
      · simp only [sendWebhookGo, houtcome, if_pos hc]
        exact (ih _ _ _ _).trans (by omega)
      · simp only [sendWebhookGo, houtcome, if_neg hc, failResult]
        omega

/-- Every awaited backoff delay is the source formula: base times
2 to the number of completed attempts, plus the Math.random draw scaled
by max(50, base / 2). -/
theorem sendWebhookGo_waits (outcomes : ℕ → FetchOutcome)
    (jitter : ℕ → ℚ) (opts : WebhookOptions) :
    ∀ fuel attempt ls lb le n w,
      (sendWebhookGo outcomes jitter opts attempt ls lb le fuel).2.get? n =
        some w →
      w = opts.backoffBaseMs * 2 ^ (attempt + n) +
        jitter (attempt + n) * max 50 (opts.backoffBaseMs / 2) := by
  intro fuel
  induction fuel with
  | zero =>
    intro attempt ls lb le n w hw
    simp [sendWebhookGo] at hw
  | succ fuel ih =>
    intro attempt ls lb le n w hw
    cases houtcome : outcomes attempt with
    | response s b =>
      by_cases hok : statusOk s
      · simp [sendWebhookGo, houtcome, hok] at hw
      · by_cases hc : ((attempt : ℤ) + 1 < opts.maxRetries) ∧
          shouldRetry (some s) (some (nonOkMessage s)) = true
        · simp only [sendWebhookGo, houtcome, hok, Bool.false_eq_true,
            if_false, if_pos hc] at hw
          cases n with
          | zero =>
            rw [List.get?_cons_zero] at hw
            rw [Nat.add_zero]
            exact (Option.some_inj.mp hw).symm
          | succ n =>
            rw [List.get?_cons_succ] at hw
            have hv := ih (attempt + 1) (some s) (some b)
              (some (nonOkMessage s)) n w hw
            rw [show attempt + (n + 1) = attempt + 1 + n by omega]
            exact hv
        · simp only [sendWebhookGo, houtcome, hok, Bool.false_eq_true,
            if_false, if_neg hc] at hw
          simp at hw
    | failure msg =>
      by_cases hc : ((attempt : ℤ) + 1 < opts.maxRetries) ∧
        shouldRetry ls (some msg) = true
      · simp only [sendWebhookGo, houtcome, if_pos hc] at hw
        cases n with
        | zero =>
          rw [List.get?_cons_zero] at hw
          rw [Nat.add_zero]
          exact (Option.some_inj.mp hw).symm
        | succ n =>
          rw [List.get?_cons_succ] at hw
          have hv := ih (attempt + 1) ls lb (some msg) n w hw
          rw [show attempt + (n + 1) = attempt + 1 + n by omega]
          exact hv
      · simp only [sendWebhookGo, houtcome, if_neg hc] at hw
        simp at hw

/-- When every attempt outcome is non-2xx, the loop burns all its fuel:
lastError is set on every path, so shouldRetry is true and only the
attempt counter can stop the loop. -/
theorem sendWebhookGo_exhaust (outcomes : ℕ → FetchOutcome)
    (jitter : ℕ → ℚ) (opts : WebhookOptions)
    (hall : ∀ i, (outcomes i).isOk = false) :
    ∀ fuel attempt ls lb le, attempt + fuel = opts.maxRetries.toNat →
      (sendWebhookGo outcomes jitter opts attempt ls lb le fuel).1.success =
        false ∧
      (sendWebhookGo outcomes jitter opts attempt ls lb le fuel).1.attempts =
        opts.maxRetries.toNat := by
  intro fuel
  induction fuel with
  | zero =>
    intro attempt ls lb le hfa
    simp only [sendWebhookGo, failResult]
    exact ⟨trivial, by omega⟩
  | succ fuel ih =>
    intro attempt ls lb le hfa
    cases houtcome : outcomes attempt with
    | response s b =>
      have hok : statusOk s = false := by
        have hi := hall attempt
        rw [houtcome] at hi
        exact hi
      by_cases hc : ((attempt : ℤ) + 1 < opts.maxRetries) ∧
          shouldRetry (some s) (some (nonOkMessage s)) = true
      · simp only [sendWebhookGo, houtcome, hok, Bool.false_eq_true,
          if_false, if_pos hc]
        exact ih (attempt + 1) (some s) (some b) (some (nonOkMessage s))
          (by omega)
      · have hsr : shouldRetry (some s) (some (nonOkMessage s)) = true := rfl
        have hlt : ¬((attempt : ℤ) + 1 < opts.maxRetries) := fun h => hc ⟨h, hsr⟩
        simp only [sendWebhookGo, houtcome, hok, Bool.false_eq_true,
          if_false, if_neg hc, failResult]
        exact ⟨trivial, by omega⟩
    | failure msg =>
      by_cases hc : ((attempt : ℤ) + 1 < opts.maxRetries) ∧
        shouldRetry ls (some msg) = true
      · simp only [sendWebhookGo, houtcome, if_pos hc]
        exact ih (attempt + 1) ls lb (some msg) (by omega)
      · have hsr : shouldRetry ls (some msg) = true := rfl
        have hlt : ¬((attempt : ℤ) + 1 < opts.maxRetries) := fun h => hc ⟨h, hsr⟩
        simp only [sendWebhookGo, houtcome, if_neg hc, failResult]
        exact ⟨trivial, by omega⟩

/-! ## Claim theorems -/

/-- C10: sendWebhook with maxRetries ≤ 0 never enters its while loop: for
every possible fetch behaviour it makes no HTTP attempt and returns
success = false, no status, no body, attempts = 0 and the message
"Unknown error" (lastError was never assigned), rather than rejecting
the configuration. -/
theorem sendWebhook_nonpositive_maxRetries (outcomes : ℕ → FetchOutcome)
    (jitter : ℕ → ℚ) (opts : WebhookOptions) (h : opts.maxRetries ≤ 0) :
    sendWebhook outcomes jitter opts =
      ({ success := false, status := none, body := none, attempts := 0,
         error := some "Unknown error" }, []) := by
  unfold sendWebhook
  rw [Int.toNat_of_nonpos h]
  rfl

/-- Witness for C10 at maxRetries = 0 with a fetch oracle that would
answer 200 if it were ever consulted. -/
theorem sendWebhook_nonpositive_maxRetries_witness :
    ((⟨50, 0, 100⟩ : WebhookOptions).maxRetries ≤ 0) ∧
    sendWebhook (fun _ => .response 200 "ok") (fun _ => 0)
        (⟨50, 0, 100⟩ : WebhookOptions) =
      ({ success := false, status := none, body := none, attempts := 0,
         error := some "Unknown error" }, []) :=
  ⟨by decide,
   sendWebhook_nonpositive_maxRetries (fun _ => .response 200 "ok")
     (fun _ => 0) _ (by decide)⟩

/-- C2 (code bug): the spec and shouldRetry's own status branch make a
non-5xx error response terminal, but sendWebhook stores a synthetic
Error in lastError for every non-ok response before consulting
shouldRetry, whose error branch then always fires: an attempt answered
404 with maxRetries = 2 is followed by a second attempt.  shouldRetry
itself, consulted without the synthetic error, would refuse to retry
404. -/
theorem sendWebhook_retries_after_4xx :
    shouldRetry (some 404) none = false ∧
    (sendWebhook (fun _ => .response 404 "not found") (fun _ => 0)
      (⟨50, 2, 100⟩ : WebhookOptions)).1.attempts = 2 ∧
    (sendWebhook (fun _ => .response 404 "not found") (fun _ => 0)
      (⟨50, 2, 100⟩ : WebhookOptions)).1.success = false := by
  refine ⟨by decide, by decide, by decide⟩

/-- C8 (amended): every backoff delay equals
backoffBase * 2^(n-1) + random * max(50, backoffBase / 2) — the jitter
is bounded by max(50, backoffBase / 2), not by backoffBase / 2 — the
attempt count never exceeds maxRetries, and when every attempt fails the
result is success = false with attempts = maxRetries. -/
theorem sendWebhook_backoff_cap_exhaust (outcomes : ℕ → FetchOutcome)
    (jitter : ℕ → ℚ) (opts : WebhookOptions) :
    (((sendWebhook outcomes jitter opts).1.attempts : ℤ) ≤
      max opts.maxRetries 0) ∧
    (∀ n w, (sendWebhook outcomes jitter opts).2.get? n = some w →
      w = opts.backoffBaseMs * 2 ^ n +
        jitter n * max 50 (opts.backoffBaseMs / 2)) ∧
    ((∀ i, (outcomes i).isOk = false) →
      (sendWebhook outcomes jitter opts).1.success = false ∧
      ((sendWebhook outcomes jitter opts).1.attempts : ℤ) =
        max opts.maxRetries 0) := by
  unfold sendWebhook
  refine ⟨?_, ?_, ?_⟩
  · have h := sendWebhookGo_attempts_le outcomes jitter opts
      opts.maxRetries.toNat 0 none none none
    omega
  · intro n w hw
    have h := sendWebhookGo_waits outcomes jitter opts
      opts.maxRetries.toNat 0 none none none n w hw
    simpa using h
  · intro hall
    have h := sendWebhookGo_exhaust outcomes jitter opts hall
      opts.maxRetries.toNat 0 none none none (by omega)
    exact ⟨h.1, by omega⟩

/-- Witness for C8: two attempts both answered 500 with base 50 and
random draw 9/10: both failure clauses fire and the single recorded
delay carries the full jitter formula. -/
theorem sendWebhook_backoff_cap_exhaust_witness :
    ((sendWebhook (fun _ => .response 500 "boom") (fun _ => 9 / 10)
        (⟨20, 2, 50⟩ : WebhookOptions)).2.get? 0 =
      some (50 * 2 ^ (0 : ℕ) + 9 / 10 * max 50 (50 / 2))) ∧
    (50 * 2 ^ (0 : ℕ) + 9 / 10 * max 50 ((50 : ℚ) / 2)) =
      (⟨20, 2, 50⟩ : WebhookOptions).backoffBaseMs * 2 ^ (0 : ℕ) +
      (9 / 10) * max 50 ((⟨20, 2, 50⟩ : WebhookOptions).backoffBaseMs / 2) ∧
    (sendWebhook (fun _ => .response 500 "boom") (fun _ => 9 / 10)
      (⟨20, 2, 50⟩ : WebhookOptions)).1.success = false ∧
    ((sendWebhook (fun _ => .response 500 "boom") (fun _ => 9 / 10)
      (⟨20, 2, 50⟩ : WebhookOptions)).1.attempts : ℤ) =
      max (⟨20, 2, 50⟩ : WebhookOptions).maxRetries 0 :=
  ⟨rfl,
   (sendWebhook_backoff_cap_exhaust (fun _ => .response 500 "boom")
      (fun _ => 9 / 10) ⟨20, 2, 50⟩).2.1 0 _ rfl,
   ((sendWebhook_backoff_cap_exhaust (fun _ => .response 500 "boom")
      (fun _ => 9 / 10) ⟨20, 2, 50⟩).2.2 (fun _ => rfl)).1,
   ((sendWebhook_backoff_cap_exhaust (fun _ => .response 500 "boom")
      (fun _ => 9 / 10) ⟨20, 2, 50⟩).2.2 (fun _ => rfl)).2⟩

/-- Counterexample for C8 as stated: with backoffBase = 50 (a value
loadEnv accepts) and Math.random drawing 9/10, the delay before attempt
2 is 95, exceeding backoffBase * 2^0 + backoffBase / 2 = 75, so the
jitter is not bounded by backoffBase / 2. -/
theorem sendWebhook_jitter_exceeds_half_base :
    (sendWebhook (fun _ => .response 500 "boom") (fun _ => 9 / 10)
      (⟨20, 2, 50⟩ : WebhookOptions)).2 = [95] ∧
    ¬((95 : ℚ) ≤ 50 * 2 ^ (0 : ℕ) + 50 / 2) := by
  constructor
  · have h : (sendWebhook (fun _ => .response 500 "boom") (fun _ => 9 / 10)
        (⟨20, 2, 50⟩ : WebhookOptions)).2 =
        [50 * 2 ^ (0 : ℕ) + 9 / 10 * max 50 (50 / 2)] := rfl
    rw [h]
    norm_num [max_def]
  · norm_num

/-- Counterexample for C5 as stated: on the two-candle window with first
candle open 50 / close 100 and last candle close 102.5, analyzePrice of
the multi-indicator monitor yields 105 (measured from the first OPEN, in
percent units), not (currentClose - previousClose) / previousClose =
0.025 (nor its percent form 2.5). -/
theorem analyzePrice_ignores_previous_close :
    (analyzePrice [⟨0, 50, 100, 40, 100, 10⟩,
      ⟨1, 101, 103, 99, 205 / 2, 12⟩]).changePercent = 105 ∧
    calculatePercentChange 100 (205 / 2) = 1 / 40 ∧
    (105 : ℚ) ≠ 1 / 40 ∧ (105 : ℚ) ≠ 100 * (1 / 40) := by
  refine ⟨?_, ?_, by norm_num, by norm_num⟩
  · show ((205 / 2 : ℚ) - 50) / 50 * 100 = 105
    norm_num
  · show ((205 / 2 : ℚ) - 100) / 100 = 1 / 40
    norm_num

/-- C5 (amended): the legacy helper calculatePercentChange returns
(current - previous) / previous with 0 at previous = 0, while the
multi-indicator analyzePrice measures (lastClose - firstOpen) /
firstOpen * 100 over the whole window, ignoring the previous close. -/
theorem priceChangePercent_formulas :
    (∀ previous current : ℚ,
      (previous = 0 → calculatePercentChange previous current = 0) ∧
      (previous ≠ 0 →
        calculatePercentChange previous current =
          (current - previous) / previous)) ∧
    (∀ (klines : List Kline) (firstK lastK : Kline),
      klines.head? = some firstK → klines.getLast? = some lastK →
      (analyzePrice klines).changePercent =
        (lastK.close - firstK.openPrice) / firstK.openPrice * 100) := by
  constructor
  · intro previous current
    constructor
    · intro h
      simp [calculatePercentChange, h]
    · intro h
      simp [calculatePercentChange, h]
  · intro klines firstK lastK hh hl
    simp [analyzePrice, hh, hl]

/-- Witness for C5 at the 100 to 102.5 window of the spec scenario. -/
theorem priceChangePercent_formulas_witness :
    calculatePercentChange 100 (205 / 2) = ((205 / 2 : ℚ) - 100) / 100 ∧
    (analyzePrice [⟨0, 50, 100, 40, 100, 10⟩,
      ⟨1, 101, 103, 99, 205 / 2, 12⟩]).changePercent =
      ((205 / 2 : ℚ) - 50) / 50 * 100 :=
  ⟨(priceChangePercent_formulas.1 100 (205 / 2)).2 (by norm_num),
   priceChangePercent_formulas.2
     [⟨0, 50, 100, 40, 100, 10⟩, ⟨1, 101, 103, 99, 205 / 2, 12⟩]
     ⟨0, 50, 100, 40, 100, 10⟩ ⟨1, 101, 103, 99, 205 / 2, 12⟩ rfl rfl⟩

/-- C9: an indicator type name outside the six recognized kinds falls to
the default switch case: observed value 0 and triggered = false, with no
exception (the embedding is a total function). -/
theorem checkIndicatorTrigger_unknown (indicatorTypeName : String)
    (thresholdValue : ℚ) (op : String) (analysis : MarketAnalysis)
    (h : indicatorTypeName ∉ recognizedIndicatorNames) :
    checkIndicatorTrigger indicatorTypeName thresholdValue op analysis =
      (0, false) := by
  simp only [recognizedIndicatorNames, List.mem_cons, List.not_mem_nil,
    or_false, not_or] at h
  obtain ⟨h1, h2, h3, h4, h5, h6⟩ := h
  simp [checkIndicatorTrigger, h1, h2, h3, h4, h5, h6]

/-- Witness for C9 at the unrecognized name "macd". -/
theorem checkIndicatorTrigger_unknown_witness :
    ("macd" ∉ recognizedIndicatorNames) ∧
    checkIndicatorTrigger "macd" 1 ">"
      ⟨"BTCUSDT", ⟨0, 0, 0, 0, 0, 0, 0, "UP"⟩,
       ⟨0, 0, 0, 0, 0, false, 0, false, false⟩, 0, 0, 5⟩ = (0, false) :=
  ⟨by decide,
   checkIndicatorTrigger_unknown "macd" 1 ">"
     ⟨"BTCUSDT", ⟨0, 0, 0, 0, 0, 0, 0, "UP"⟩,
      ⟨0, 0, 0, 0, 0, false, 0, false, false⟩, 0, 0, 5⟩ (by decide)⟩

/-- C7 (amended): for the abnormal_volume indicator the observed value
is the absolute z-score |currentVolume - mean| / sigma when the standard
deviation sigma is nonzero and 0 when sigma = 0, and the trigger verdict
is exactly evaluateCondition applied to that observed value; with
sigma = 0 the indicator cannot fire on operator > provided the
configured threshold is nonnegative. -/
theorem abnormalVolume_zscore_eval (currentVolume : ℚ) (vols : List ℚ)
    (sigma thresholdValue : ℚ) (op : String) (pa : PriceAnalysis)
    (sym : String) (ws we wm : ℤ) (hsd : isStdDev vols sigma) :
    (sigma ≠ 0 →
      (checkIndicatorTrigger "abnormal_volume" thresholdValue op
        ⟨sym, pa, analyzeVolume currentVolume vols sigma, ws, we, wm⟩).1 =
        |currentVolume - averageVolume vols| / sigma) ∧
    (sigma = 0 →
      (checkIndicatorTrigger "abnormal_volume" thresholdValue op
        ⟨sym, pa, analyzeVolume currentVolume vols sigma, ws, we, wm⟩).1 = 0) ∧
    (checkIndicatorTrigger "abnormal_volume" thresholdValue op
        ⟨sym, pa, analyzeVolume currentVolume vols sigma, ws, we, wm⟩).2 =
      evaluateCondition
        (checkIndicatorTrigger "abnormal_volume" thresholdValue op
          ⟨sym, pa, analyzeVolume currentVolume vols sigma, ws, we, wm⟩).1
        thresholdValue op ∧
    (sigma = 0 → 0 ≤ thresholdValue →
      (checkIndicatorTrigger "abnormal_volume" thresholdValue ">"
        ⟨sym, pa, analyzeVolume currentVolume vols sigma, ws, we, wm⟩).2 =
        false) := by
  have hv : (checkIndicatorTrigger "abnormal_volume" thresholdValue op
      ⟨sym, pa, analyzeVolume currentVolume vols sigma, ws, we, wm⟩) =
      (|calculateZScore currentVolume (averageVolume vols) sigma|,
       evaluateCondition
         |calculateZScore currentVolume (averageVolume vols) sigma|
         thresholdValue op) := by
    simp [checkIndicatorTrigger, analyzeVolume]
  refine ⟨?_, ?_, ?_, ?_⟩
  · intro hs
    rw [hv]
    simp only [calculateZScore, if_neg hs]
    rw [abs_div, abs_of_pos (lt_of_le_of_ne hsd.1 (Ne.symm hs))]
  · intro hs
    rw [hv]
    simp [calculateZScore, hs]
  · rw [hv]
  · intro hs ht
    have hv2 : (checkIndicatorTrigger "abnormal_volume" thresholdValue ">"
        ⟨sym, pa, analyzeVolume currentVolume vols sigma, ws, we, wm⟩) =
        (|calculateZScore currentVolume (averageVolume vols) sigma|,
         evaluateCondition
           |calculateZScore currentVolume (averageVolume vols) sigma|
           thresholdValue ">") := by
      simp [checkIndicatorTrigger, analyzeVolume]
    rw [hv2]
    simp only [calculateZScore, if_pos hs, abs_zero]
    simp [evaluateCondition]
    exact ht

/-- Witness for C7 on the series 4, 8 (mean 6, variance 4, sigma 2) with
current volume 12 and threshold 2, and on the constant series 5, 5
(sigma 0) for the zero and never-trigger clauses. -/
theorem abnormalVolume_zscore_eval_witness :
    isStdDev [4, 8] 2 ∧
    (checkIndicatorTrigger "abnormal_volume" 2 ">="
      ⟨"BTCUSDT", ⟨0, 0, 0, 0, 0, 0, 0, "UP"⟩, analyzeVolume 12 [4, 8] 2,
       0, 0, 5⟩).1 = |12 - averageVolume [4, 8]| / 2 ∧
    (checkIndicatorTrigger "abnormal_volume" 2 ">"
      ⟨"BTCUSDT", ⟨0, 0, 0, 0, 0, 0, 0, "UP"⟩, analyzeVolume 12 [5, 5] 0,
       0, 0, 5⟩).1 = 0 ∧
    (checkIndicatorTrigger "abnormal_volume" 2 ">"
      ⟨"BTCUSDT", ⟨0, 0, 0, 0, 0, 0, 0, "UP"⟩, analyzeVolume 12 [5, 5] 0,
       0, 0, 5⟩).2 = false := by
  have hsd : isStdDev [4, 8] 2 :=
    ⟨by norm_num, by show (2 : ℚ) ^ 2 = varianceOf [4, 8]; norm_num [varianceOf]⟩
  have hsd0 : isStdDev [5, 5] 0 :=
    ⟨le_refl 0, by show (0 : ℚ) ^ 2 = varianceOf [5, 5]; norm_num [varianceOf]⟩
  refine ⟨hsd, ?_, ?_, ?_⟩
  · exact (abnormalVolume_zscore_eval 12 [4, 8] 2 2 ">="
      ⟨0, 0, 0, 0, 0, 0, 0, "UP"⟩ "BTCUSDT" 0 0 5 hsd).1 (by norm_num)
  · exact (abnormalVolume_zscore_eval 12 [5, 5] 0 2 ">"
      ⟨0, 0, 0, 0, 0, 0, 0, "UP"⟩ "BTCUSDT" 0 0 5 hsd0).2.1 rfl
  · exact (abnormalVolume_zscore_eval 12 [5, 5] 0 2 ">"
      ⟨0, 0, 0, 0, 0, 0, 0, "UP"⟩ "BTCUSDT" 0 0 5 hsd0).2.2.2 rfl (by norm_num)

/-- Counterexample for C7's parenthetical: with the constant series 5, 5
the standard deviation is 0 and the observed value is 0, yet with the
negative configured threshold -1 the indicator DOES fire on operator >
(0 > -1). -/
theorem abnormalVolume_triggers_neg_threshold :
    isStdDev [5, 5] 0 ∧
    (checkIndicatorTrigger "abnormal_volume" (-1) ">"
      ⟨"BTCUSDT", ⟨0, 0, 0, 0, 0, 0, 0, "UP"⟩, analyzeVolume 7 [5, 5] 0,
       0, 0, 5⟩).2 = true := by
  constructor
  · constructor
    · norm_num
    · show (0 : ℚ) ^ 2 = varianceOf [5, 5]
      norm_num [varianceOf]
  · simp [checkIndicatorTrigger, analyzeVolume, calculateZScore,
      evaluateCondition]

/-! ## Helper lemmas about the alerts ledger -/

/-- find? skips a prefix in which nothing matches. -/
theorem find?_append_of_none {α : Type} (p : α → Bool) (l1 l2 : List α)
    (h : l1.find? p = none) : (l1 ++ l2).find? p = l2.find? p := by
  induction l1 with
  | nil => rfl
  | cons a as ih =>
    by_cases hp : p a = true
    · rw [List.find?_cons_of_pos _ hp] at h
      cases h
    · rw [List.cons_append, List.find?_cons_of_neg _ hp]
      rw [List.find?_cons_of_neg _ hp] at h
      exact ih h

/-- Under unique keys, findAlertByIdempotency locates exactly the member
row carrying the key. -/
theorem findAlert_of_nodup (table : List AlertRow) (r : AlertRow)
    (hnd : (ledgerKeys table).Nodup) (hmem : r ∈ table) :
    findAlertByIdempotency table r.idempotency_key = some r := by
  induction table with
  | nil => cases hmem
  | cons a rest ih =>
    rw [ledgerKeys, List.map_cons, List.nodup_cons] at hnd
    by_cases hk : (a.idempotency_key == r.idempotency_key) = true
    · have hkey : a.idempotency_key = r.idempotency_key := beq_iff_eq.mp hk
      rcases List.mem_cons.mp hmem with h | h
      · rw [findAlertByIdempotency]
        simp only [List.find?, hk]
        rw [h]
      · exact absurd (hkey ▸ List.mem_map_of_mem AlertRow.idempotency_key h)
          hnd.1
    · have hk' : (a.idempotency_key == r.idempotency_key) = false := by
        simpa using hk
      rw [findAlertByIdempotency]
      simp only [List.find?, hk']
      have hr : r ∈ rest := by
        rcases List.mem_cons.mp hmem with h | h
        · exact absurd (by simp [h]) hk
        · exact h
      have hres := ih hnd.2 hr
      rw [findAlertByIdempotency] at hres
      exact hres

/-- One recordAlert write keeps the ledger keys duplicate-free. -/
theorem recordAlert_keys_nodup (table : List AlertRow) (d : RecordAlertData)
    (nowTime : String) (hnd : (ledgerKeys table).Nodup) :
    (ledgerKeys (recordAlert table d nowTime)).Nodup := by
  rw [recordAlert, ledgerKeys, List.map_append]
  apply List.Nodup.append
  · exact ((List.filter_sublist _).map AlertRow.idempotency_key).nodup hnd
  · simp
  · intro k hk1 hk2
    simp only [List.map_cons, List.map_nil, List.mem_singleton] at hk2
    subst hk2
    simp only [List.mem_map, List.mem_filter] at hk1
    obtain ⟨x, ⟨_, hxf⟩, hxk⟩ := hk1
    rw [hxk] at hxf
    simp at hxf

/-- The row with an already-present key after a recordAlert write: one
copy, carrying the data of the write and the original created_at. -/
theorem recordAlert_replaces (table : List AlertRow) (d : RecordAlertData)
    (nowTime : String) (r : AlertRow) (hnd : (ledgerKeys table).Nodup)
    (hmem : r ∈ table) (hkey : r.idempotency_key = d.idempotencyKey) :
    findAlertByIdempotency (recordAlert table d nowTime) d.idempotencyKey =
      some { symbol := d.symbol.toUpper, change_percent := d.changePercent,
             direction := d.direction, window_start := d.windowStart,
             window_end := d.windowEnd, idempotency_key := d.idempotencyKey,
             status := d.status, response_code := d.responseCode,
             response_body := d.responseBody, created_at := r.created_at } ∧
    ((recordAlert table d nowTime).filter
      (fun x => x.idempotency_key == d.idempotencyKey)).length = 1 := by
  have hfind : findAlertByIdempotency table d.idempotencyKey = some r := by
    rw [← hkey]
    exact findAlert_of_nodup table r hnd hmem
  have hprefix : (table.filter
      (fun x => !(x.idempotency_key == d.idempotencyKey))).find?
      (fun x => x.idempotency_key == d.idempotencyKey) = none := by
    rw [List.find?_eq_none]
    intro x hx
    have := (List.mem_filter.mp hx).2
    simp only [Bool.not_eq_true'] at this
    simp [this]
  constructor
  · rw [recordAlert, hfind, findAlertByIdempotency,
      find?_append_of_none _ _ _ hprefix]
    simp [List.find?_cons_of_pos]
  · rw [recordAlert, List.filter_append]
    have h1 : (table.filter
        (fun x => !(x.idempotency_key == d.idempotencyKey))).filter
        (fun x => x.idempotency_key == d.idempotencyKey) = [] := by
      rw [List.filter_eq_nil_iff]
      intro x hx
      have := (List.mem_filter.mp hx).2
      simp only [Bool.not_eq_true'] at this
      simp [this]
    rw [h1, hfind]
    simp

/-- C6: sequences of recordAlert writes never create two rows with one
idempotency key: starting from the empty alerts table the keys stay
duplicate-free after any write sequence, and a write whose key is
already present leaves exactly one row for that key, carrying the new
fields (in particular the new terminal status) but the original row's
created_at. -/
theorem recordAlert_unique_key_invariant :
    (∀ writes : List (RecordAlertData × String),
      (ledgerKeys (writes.foldl
        (fun t dn => recordAlert t dn.1 dn.2) [])).Nodup) ∧
    (∀ (table : List AlertRow) (d : RecordAlertData) (nowTime : String)
      (r : AlertRow), (ledgerKeys table).Nodup → r ∈ table →
      r.idempotency_key = d.idempotencyKey →
      findAlertByIdempotency (recordAlert table d nowTime)
          d.idempotencyKey =
        some { symbol := d.symbol.toUpper, change_percent := d.changePercent,
               direction := d.direction, window_start := d.windowStart,
               window_end := d.windowEnd, idempotency_key := d.idempotencyKey,
               status := d.status, response_code := d.responseCode,
               response_body := d.responseBody,
               created_at := r.created_at } ∧
      ((recordAlert table d nowTime).filter
        (fun x => x.idempotency_key == d.idempotencyKey)).length = 1) := by
  constructor
  · have general : ∀ (ws : List (RecordAlertData × String))
        (t : List AlertRow), (ledgerKeys t).Nodup →
        (ledgerKeys (ws.foldl (fun t dn => recordAlert t dn.1 dn.2) t)).Nodup := by
      intro ws
      induction ws with
      | nil => intro t h; exact h
      | cons w rest ih =>
        intro t h
        exact ih _ (recordAlert_keys_nodup t w.1 w.2 h)
    intro writes
    exact general writes [] (by simp [ledgerKeys])
  · intro table d nowTime r hnd hmem hkey
    exact recordAlert_replaces table d nowTime r hnd hmem hkey

/-- Witness for C6: a SENT row for key "K" created at "t0", rewritten
with status FAILED at "t1": one row remains, FAILED, created at "t0". -/
theorem recordAlert_unique_key_invariant_witness :
    findAlertByIdempotency
      (recordAlert
        [{ symbol := "BTCUSDT", change_percent := 0, direction := .UP,
           window_start := 0, window_end := 600000,
           idempotency_key := "K", status := .SENT, response_code := some 200,
           response_body := some "ok", created_at := "t0" }]
        { symbol := "BTCUSDT", changePercent := 0, direction := .UP,
          windowStart := 0, windowEnd := 600000, idempotencyKey := "K",
          status := .FAILED, responseCode := some 500,
          responseBody := some "boom" } "t1") "K" =
      some { symbol := "BTCUSDT".toUpper, change_percent := 0,
             direction := .UP, window_start := 0, window_end := 600000,
             idempotency_key := "K", status := .FAILED,
             response_code := some 500, response_body := some "boom",
             created_at := "t0" } ∧
    ((recordAlert
        [{ symbol := "BTCUSDT", change_percent := 0, direction := .UP,
           window_start := 0, window_end := 600000,
           idempotency_key := "K", status := .SENT, response_code := some 200,
           response_body := some "ok", created_at := "t0" }]
        { symbol := "BTCUSDT", changePercent := 0, direction := .UP,
          windowStart := 0, windowEnd := 600000, idempotencyKey := "K",
          status := .FAILED, responseCode := some 500,
          responseBody := some "boom" } "t1").filter
      (fun x => x.idempotency_key == "K")).length = 1 := by
  have h := recordAlert_unique_key_invariant.2
    [{ symbol := "BTCUSDT", change_percent := 0, direction := .UP,
       window_start := 0, window_end := 600000,
       idempotency_key := "K", status := .SENT, response_code := some 200,
       response_body := some "ok", created_at := "t0" }]
    { symbol := "BTCUSDT", changePercent := 0, direction := .UP,
      windowStart := 0, windowEnd := 600000, idempotencyKey := "K",
      status := .FAILED, responseCode := some 500,
      responseBody := some "boom" } "t1"
    { symbol := "BTCUSDT", change_percent := 0, direction := .UP,
      window_start := 0, window_end := 600000,
      idempotency_key := "K", status := .SENT, response_code := some 200,
      response_body := some "ok", created_at := "t0" }
    (by simp [ledgerKeys]) (List.mem_singleton.mpr rfl) rfl
  exact h

/-! ## Helper lemmas about the legacy pipeline -/

/-- recordAlert always leaves exactly one row carrying the written key. -/
theorem recordAlert_count (table : List AlertRow) (d : RecordAlertData)
    (nowTime : String) :
    ((recordAlert table d nowTime).filter
      (fun x => x.idempotency_key == d.idempotencyKey)).length = 1 := by
  rw [recordAlert, List.filter_append]
  have h1 : (table.filter
      (fun x => !(x.idempotency_key == d.idempotencyKey))).filter
      (fun x => x.idempotency_key == d.idempotencyKey) = [] := by
    rw [List.filter_eq_nil_iff]
    intro x hx
    have := (List.mem_filter.mp hx).2
    simp only [Bool.not_eq_true'] at this
    simp [this]
  rw [h1]
  simp

/-- After a recordAlert write the written key is found. -/
theorem findAlert_after_recordAlert (table : List AlertRow)
    (d : RecordAlertData) (nowTime : String) :
    ∃ ex, findAlertByIdempotency (recordAlert table d nowTime)
      d.idempotencyKey = some ex := by
  cases hh : findAlertByIdempotency (recordAlert table d nowTime)
      d.idempotencyKey with
  | some x => exact ⟨x, rfl⟩
  | none =>
    exfalso
    rw [findAlertByIdempotency, List.find?_eq_none, recordAlert] at hh
    have hx := hh _ (List.mem_append_right _ (List.mem_singleton.mpr rfl))
    simp at hx

/-- The duplicate branch of processSymbol: an existing ledger row for
the computed idempotency key short-circuits with the row's status,
reason duplicate, no ledger write and no webhook call. -/
theorem processSymbol_duplicate (genKey : String → ℤ → ℚ → String)
    (thresholdDefault : ℚ) (cooldownDefault : ℤ) (nowTime : String)
    (ledger : List AlertRow) (sym : SymbolRecord) (env : SymbolEnv)
    (w : WindowData) (ex : AlertRow)
    (hf : env.fetch = .ok (some w)) (ht : w.shouldTrigger = true)
    (hex : findAlertByIdempotency ledger
      (genKey sym.symbol.toUpper w.windowEnd
        (sym.threshold_percent.getD thresholdDefault)) = some ex) :
    processSymbol genKey thresholdDefault cooldownDefault nowTime ledger
        sym env =
      (ledger, { symbol := sym.symbol.toUpper, status := ex.status,
                 triggered := ex.status = .SENT,
                 changePercent := some ex.change_percent,
                 windowEnd := some ex.window_end,
                 reason := some "duplicate" }, 0) := by
  rw [processSymbol, hf]
  simp [ht, hex]

/-- When the computed key is fresh, processSymbol writes exactly one
ledger row, through recordAlert, keyed by that key (by the cooldown-skip
write or by the delivery write). -/
theorem processSymbol_fresh_ledger (genKey : String → ℤ → ℚ → String)
    (thresholdDefault : ℚ) (cooldownDefault : ℤ) (nowTime : String)
    (ledger : List AlertRow) (sym : SymbolRecord) (env : SymbolEnv)
    (w : WindowData)
    (hf : env.fetch = .ok (some w)) (ht : w.shouldTrigger = true)
    (hnone : findAlertByIdempotency ledger
      (genKey sym.symbol.toUpper w.windowEnd
        (sym.threshold_percent.getD thresholdDefault)) = none) :
    ∃ d : RecordAlertData,
      d.idempotencyKey = genKey sym.symbol.toUpper w.windowEnd
        (sym.threshold_percent.getD thresholdDefault) ∧
      (processSymbol genKey thresholdDefault cooldownDefault nowTime ledger
        sym env).1 = recordAlert ledger d nowTime := by
  rw [processSymbol, hf]
  simp only [ht, Bool.not_true, Bool.false_eq_true, if_false, hnone]
  split
  · exact ⟨_, rfl, rfl⟩
  · exact ⟨_, rfl, rfl⟩

/-- The duplicate branch of processTrigger, reachable when the resolved
cooldown is 0 (otherwise checkCooldown throws first): an existing
alerts_new row for the computed key short-circuits with the row's
status, reason duplicate, no insert and no webhook call. -/
theorem processTrigger_duplicate (windowMinutes cooldownDefault : ℤ)
    (nowTime : String) (ledger : List AlertNewRow) (sym : SymbolRecord)
    (a : MultiAnalysisData) (t : TriggerData) (ex : AlertNewRow)
    (hcd : (t.indicatorCooldown.orElse
      (fun _ => sym.cooldown_minutes)).getD cooldownDefault = 0)
    (hex : findAlertNewByIdempotency ledger
      (generateIdempotencyKeyNew sym.symbol t.name a.windowEnd
        t.thresholdValue t.op) = some ex) :
    processTrigger windowMinutes cooldownDefault nowTime ledger sym a t =
      .ok (ledger,
        { symbol := sym.symbol, indicatorType := t.name,
          indicatorDisplayName := t.displayName, status := ex.status,
          triggered := ex.status = .SENT,
          indicatorValue := t.indicatorValue,
          thresholdValue := t.thresholdValue, direction := none,
          windowEnd := some a.windowEnd, reason := some "duplicate" },
        0) := by
  rw [processTrigger]
  rw [hcd]
  simp [checkCooldown, hex, Bind.bind, Except.bind]

/-- C1 (amended): in the legacy pipeline the idempotency lookup precedes
every write and the cooldown check, so (first conjunct) an existing
ledger row for the computed key makes the run report that row's status
with reason duplicate, touch nothing and send nothing, and (second
conjunct) two runs on identical input leave the first run's ledger
untouched, report duplicate with zero webhook calls on the second run,
and — when the key was fresh — exactly one ledger row for the key.  In
the multi-indicator pipeline the cooldown check runs BEFORE the
idempotency lookup, so (third conjunct) the duplicate report is only
guaranteed when the resolved cooldown is 0. -/
theorem trigger_idempotency (genKey : String → ℤ → ℚ → String)
    (thresholdDefault : ℚ) (cooldownDefault : ℤ) (nowTime : String) :
    (∀ (ledger : List AlertRow) (sym : SymbolRecord) (env : SymbolEnv)
       (w : WindowData) (ex : AlertRow),
      env.fetch = .ok (some w) → w.shouldTrigger = true →
      findAlertByIdempotency ledger
        (genKey sym.symbol.toUpper w.windowEnd
          (sym.threshold_percent.getD thresholdDefault)) = some ex →
      processSymbol genKey thresholdDefault cooldownDefault nowTime ledger
          sym env =
        (ledger, { symbol := sym.symbol.toUpper, status := ex.status,
                   triggered := ex.status = .SENT,
                   changePercent := some ex.change_percent,
                   windowEnd := some ex.window_end,
                   reason := some "duplicate" }, 0)) ∧
    (∀ (ledger : List AlertRow) (sym : SymbolRecord) (env : SymbolEnv)
       (w : WindowData),
      env.fetch = .ok (some w) → w.shouldTrigger = true →
      (processSymbol genKey thresholdDefault cooldownDefault nowTime
        (processSymbol genKey thresholdDefault cooldownDefault nowTime
          ledger sym env).1 sym env).1 =
        (processSymbol genKey thresholdDefault cooldownDefault nowTime
          ledger sym env).1 ∧
      (processSymbol genKey thresholdDefault cooldownDefault nowTime
        (processSymbol genKey thresholdDefault cooldownDefault nowTime
          ledger sym env).1 sym env).2.1.reason = some "duplicate" ∧
      (processSymbol genKey thresholdDefault cooldownDefault nowTime
        (processSymbol genKey thresholdDefault cooldownDefault nowTime
          ledger sym env).1 sym env).2.2 = 0 ∧
      (findAlertByIdempotency ledger
          (genKey sym.symbol.toUpper w.windowEnd
            (sym.threshold_percent.getD thresholdDefault)) = none →
        ((processSymbol genKey thresholdDefault cooldownDefault nowTime
          (processSymbol genKey thresholdDefault cooldownDefault nowTime
            ledger sym env).1 sym env).1.filter
          (fun x => x.idempotency_key == genKey sym.symbol.toUpper
            w.windowEnd
            (sym.threshold_percent.getD thresholdDefault))).length = 1)) ∧
    (∀ (windowMinutes : ℤ) (ledgerNew : List AlertNewRow)
       (sym : SymbolRecord) (a : MultiAnalysisData) (t : TriggerData)
       (ex : AlertNewRow),
      (t.indicatorCooldown.orElse
        (fun _ => sym.cooldown_minutes)).getD cooldownDefault = 0 →
      findAlertNewByIdempotency ledgerNew
        (generateIdempotencyKeyNew sym.symbol t.name a.windowEnd
          t.thresholdValue t.op) = some ex →
      processTrigger windowMinutes cooldownDefault nowTime ledgerNew sym
          a t =
        .ok (ledgerNew,
          { symbol := sym.symbol, indicatorType := t.name,
            indicatorDisplayName := t.displayName, status := ex.status,
            triggered := ex.status = .SENT,
            indicatorValue := t.indicatorValue,
            thresholdValue := t.thresholdValue, direction := none,
            windowEnd := some a.windowEnd, reason := some "duplicate" },
          0)) := by
  refine ⟨?_, ?_, ?_⟩
  · intro ledger sym env w ex hf ht hex
    exact processSymbol_duplicate genKey thresholdDefault cooldownDefault
      nowTime ledger sym env w ex hf ht hex
  · intro ledger sym env w hf ht
    cases hex : findAlertByIdempotency ledger
        (genKey sym.symbol.toUpper w.windowEnd
          (sym.threshold_percent.getD thresholdDefault)) with
    | some ex =>
      have e1 := processSymbol_duplicate genKey thresholdDefault
        cooldownDefault nowTime ledger sym env w ex hf ht hex
      rw [e1]
      have e2 := processSymbol_duplicate genKey thresholdDefault
        cooldownDefault nowTime ledger sym env w ex hf ht hex
      rw [e2]
      refine ⟨rfl, rfl, rfl, ?_⟩
      intro hnone
      exact absurd hnone (by simp)
    | none =>
      obtain ⟨d, hdkey, hl1⟩ := processSymbol_fresh_ledger genKey
        thresholdDefault cooldownDefault nowTime ledger sym env w hf ht hex
      obtain ⟨ex, hex1⟩ := findAlert_after_recordAlert ledger d nowTime
      rw [hdkey] at hex1
      have e2 := processSymbol_duplicate genKey thresholdDefault
        cooldownDefault nowTime (recordAlert ledger d nowTime) sym env w ex
        hf ht hex1
      rw [hl1, e2]
      refine ⟨rfl, rfl, rfl, fun _ => ?_⟩
      rw [← hdkey]
      exact recordAlert_count ledger d nowTime
  · intro windowMinutes ledgerNew sym a t ex hcd hex
    exact processTrigger_duplicate windowMinutes cooldownDefault nowTime
      ledgerNew sym a t ex hcd hex

/-- Witness for C1: a constant digest "K", a SENT row for it in the
legacy ledger (duplicate reported with zero webhook calls), a fresh run
from the empty ledger executed twice (one row for the key, duplicate on
the second run), and a zero-cooldown multi trigger finding its existing
alerts_new row. -/
theorem trigger_idempotency_witness :
    processSymbol (fun _ _ _ => "K") 2 10 "t1"
        [⟨"BTCUSDT", 5, .UP, 0, 600000, "K", .SENT, some 200, some "ok", "t0"⟩]
        ⟨"BTCUSDT", 1, none, none, none⟩
        ⟨.ok (some ⟨5, 0, 600000, true⟩), true, some 200, some "ok"⟩ =
      ([⟨"BTCUSDT", 5, .UP, 0, 600000, "K", .SENT, some 200, some "ok", "t0"⟩],
       { symbol := "BTCUSDT".toUpper, status := .SENT, triggered := true,
         changePercent := some 5, windowEnd := some 600000,
         reason := some "duplicate" }, 0) ∧
    (processSymbol (fun _ _ _ => "K") 2 10 "t1"
      (processSymbol (fun _ _ _ => "K") 2 10 "t1" []
        ⟨"BTCUSDT", 1, none, none, none⟩
        ⟨.ok (some ⟨5, 0, 600000, true⟩), true, some 200, some "ok"⟩).1
      ⟨"BTCUSDT", 1, none, none, none⟩
      ⟨.ok (some ⟨5, 0, 600000, true⟩), true, some 200, some "ok"⟩).2.1.reason =
      some "duplicate" ∧
    ((processSymbol (fun _ _ _ => "K") 2 10 "t1"
      (processSymbol (fun _ _ _ => "K") 2 10 "t1" []
        ⟨"BTCUSDT", 1, none, none, none⟩
        ⟨.ok (some ⟨5, 0, 600000, true⟩), true, some 200, some "ok"⟩).1
      ⟨"BTCUSDT", 1, none, none, none⟩
      ⟨.ok (some ⟨5, 0, 600000, true⟩), true, some 200, some "ok"⟩).1.filter
        (fun x => x.idempotency_key == (fun _ _ _ => "K")
          ("BTCUSDT" : String).toUpper (600000 : ℤ)
          ((none : Option ℚ).getD 2))).length = 1 ∧
    processTrigger 5 10 "t1"
        [⟨"BTCUSDT", 1, 5, 2, some 5, some "UP", 0, 600000, 5,
          generateIdempotencyKeyNew "BTCUSDT" "price_change_percent"
            600000 2 ">", .SENT, some 200, some "ok", "t0"⟩]
        ⟨"BTCUSDT", 1, none, some 0, none⟩ ⟨0, 600000, 5, []⟩
        ⟨"price_change_percent", 1, "Price Change", 5, 2, ">", "UP", none,
         true, some 200, some "ok"⟩ =
      .ok ([⟨"BTCUSDT", 1, 5, 2, some 5, some "UP", 0, 600000, 5,
             generateIdempotencyKeyNew "BTCUSDT" "price_change_percent"
               600000 2 ">", .SENT, some 200, some "ok", "t0"⟩],
        { symbol := "BTCUSDT", indicatorType := "price_change_percent",
          indicatorDisplayName := "Price Change", status := .SENT,
          triggered := true, indicatorValue := 5, thresholdValue := 2,
          direction := none, windowEnd := some 600000,
          reason := some "duplicate" }, 0) := by
  refine ⟨?_, ?_, ?_, ?_⟩
  · exact (trigger_idempotency (fun _ _ _ => "K") 2 10 "t1").1
      [⟨"BTCUSDT", 5, .UP, 0, 600000, "K", .SENT, some 200, some "ok", "t0"⟩]
      ⟨"BTCUSDT", 1, none, none, none⟩
      ⟨.ok (some ⟨5, 0, 600000, true⟩), true, some 200, some "ok"⟩
      ⟨5, 0, 600000, true⟩
      ⟨"BTCUSDT", 5, .UP, 0, 600000, "K", .SENT, some 200, some "ok", "t0"⟩
      rfl rfl (by decide)
  · exact ((trigger_idempotency (fun _ _ _ => "K") 2 10 "t1").2.1 []
      ⟨"BTCUSDT", 1, none, none, none⟩
      ⟨.ok (some ⟨5, 0, 600000, true⟩), true, some 200, some "ok"⟩
      ⟨5, 0, 600000, true⟩ rfl rfl).2.1
  · exact ((trigger_idempotency (fun _ _ _ => "K") 2 10 "t1").2.1 []
      ⟨"BTCUSDT", 1, none, none, none⟩
      ⟨.ok (some ⟨5, 0, 600000, true⟩), true, some 200, some "ok"⟩
      ⟨5, 0, 600000, true⟩ rfl rfl).2.2.2 (by decide)
  · exact (trigger_idempotency (fun _ _ _ => "K") 2 10 "t1").2.2 5
      [⟨"BTCUSDT", 1, 5, 2, some 5, some "UP", 0, 600000, 5,
        generateIdempotencyKeyNew "BTCUSDT" "price_change_percent"
          600000 2 ">", .SENT, some 200, some "ok", "t0"⟩]
      ⟨"BTCUSDT", 1, none, some 0, none⟩ ⟨0, 600000, 5, []⟩
      ⟨"price_change_percent", 1, "Price Change", 5, 2, ">", "UP", none,
       true, some 200, some "ok"⟩
      ⟨"BTCUSDT", 1, 5, 2, some 5, some "UP", 0, 600000, 5,
        generateIdempotencyKeyNew "BTCUSDT" "price_change_percent"
          600000 2 ">", .SENT, some 200, some "ok", "t0"⟩
      (by decide) (by decide)

/-- Counterexample for C1 as stated: in the multi-indicator pipeline
with the default cooldown of 10 minutes, a second identical run finds
its alerts_new row for the computed key present, yet the run reports
FAILED monitor_error (the cooldown check runs first and its broken
lookup throws), not the existing row's status with reason duplicate,
even though it does issue zero webhook requests. -/
theorem multi_duplicate_reports_monitor_error :
    (findAlertNewByIdempotency
      [⟨"BTCUSDT", 1, 5, 2, some 5, some "UP", 0, 600000, 5,
        generateIdempotencyKeyNew "BTCUSDT" "price_change_percent"
          600000 2 ">", .SENT, some 200, some "ok", "t0"⟩]
      (generateIdempotencyKeyNew "BTCUSDT" "price_change_percent"
        600000 2 ">")).isSome = true ∧
    processSymbolMulti 5 10 "t1"
        [⟨"BTCUSDT", 1, 5, 2, some 5, some "UP", 0, 600000, 5,
          generateIdempotencyKeyNew "BTCUSDT" "price_change_percent"
            600000 2 ">", .SENT, some 200, some "ok", "t0"⟩]
        ⟨"BTCUSDT", 1, none, some 10, none⟩
        ⟨.ok (some ⟨0, 600000, 5,
          [⟨"price_change_percent", 1, "Price Change", 5, 2, ">", "UP",
            none, true, some 200, some "ok"⟩]⟩)⟩ =
      ([⟨"BTCUSDT", 1, 5, 2, some 5, some "UP", 0, 600000, 5,
         generateIdempotencyKeyNew "BTCUSDT" "price_change_percent"
           600000 2 ">", .SENT, some 200, some "ok", "t0"⟩],
       [multiFailedResult ⟨"BTCUSDT", 1, none, some 10, none⟩], 0) := by
  exact ⟨by decide, by decide⟩

/-- C3 (code bug evidence): the cooldown comparison itself is the strict
gap test of the claim — a window ending 9m59s after the last alert's
window end is within a 10-minute cooldown, one ending 10m01s after it
is not — but checkCooldown of the multi-indicator pipeline, invoked with
any nonzero cooldown, throws before any lookup (its call to
getLatestAlertNewForSymbol omits the db handle), so a trigger that the
claim says should be cooldown-checked (and possibly SKIPPED with reason
cooldown_active) instead makes the whole symbol FAILED monitor_error. -/
theorem cooldown_check_behavior :
    isWithinCooldown (some 1000000) (1000000 + 599000) 10 = true ∧
    isWithinCooldown (some 1000000) (1000000 + 601000) 10 = false ∧
    checkCooldown 10 =
      .error "TypeError: symbol.prepare is not a function" ∧
    processSymbolMulti 5 10 "t1" []
        ⟨"BTCUSDT", 1, none, some 10, none⟩
        ⟨.ok (some ⟨0, 600000, 5,
          [⟨"price_change_percent", 1, "Price Change", 5, 2, ">", "UP",
            none, true, some 200, some "ok"⟩]⟩)⟩ =
      ([], [multiFailedResult ⟨"BTCUSDT", 1, none, some 10, none⟩], 0) := by
  exact ⟨by decide, by decide, rfl, by decide⟩

/-! ## Helper lemmas about symbol resolution and the monitor loops -/

/-- Membership through the Set-insertion fold of uniqueFirst. -/
theorem mem_uniqueFirst_fold (l : List String) (acc : List String)
    (x : String) :
    x ∈ l.foldl (fun acc y => if y ∈ acc then acc else acc ++ [y]) acc ↔
      x ∈ acc ∨ x ∈ l := by
  induction l generalizing acc with
  | nil => simp
  | cons y ys ih =>
    rw [List.foldl_cons, ih, List.mem_cons]
    by_cases hy : y ∈ acc
    · rw [if_pos hy]
      constructor
      · intro h
        exact h.imp_right Or.inr
      · rintro (h | h | h)
        · exact Or.inl h
        · exact Or.inl (by rw [h]; exact hy)
        · exact Or.inr h
    · rw [if_neg hy]
      simp [List.mem_append, or_assoc]

/-- Membership in uniqueFirst is membership in the original list. -/
theorem mem_uniqueFirst (l : List String) (x : String) :
    x ∈ uniqueFirst l ↔ x ∈ l := by
  rw [uniqueFirst, mem_uniqueFirst_fold]
  simp

/-- The resolution fold only ever grows both accumulators. -/
theorem resolveFold_mono (lookup : String → Option SymbolRecord) :
    ∀ (l : List String) (acc : List SymbolRecord × List MonitorResult),
      (∀ r ∈ acc.1, r ∈ (l.foldl (resolveStep lookup) acc).1) ∧
      (∀ m ∈ acc.2, m ∈ (l.foldl (resolveStep lookup) acc).2) := by
  intro l
  induction l with
  | nil => exact fun acc => ⟨fun r h => h, fun m h => h⟩
  | cons s ss ih =>
    intro acc
    rw [List.foldl_cons]
    refine ⟨fun r h => (ih _).1 r ?_, fun m h => (ih _).2 m ?_⟩
    · rw [resolveStep]
      split
      · exact h
      · split
        · exact h
        · exact List.mem_append_left _ h
    · rw [resolveStep]
      split
      · exact List.mem_append_left _ h
      · split
        · exact List.mem_append_left _ h
        · exact h

/-- Every name fed to the resolution fold lands either in the skipped
results (as its own symbol) or in the found records (via the lookup). -/
theorem resolveFold_covers (lookup : String → Option SymbolRecord) :
    ∀ (l : List String) (acc : List SymbolRecord × List MonitorResult)
      (u : String), u ∈ l →
      (∃ m ∈ (l.foldl (resolveStep lookup) acc).2, m.symbol = u) ∨
      (∃ rec ∈ (l.foldl (resolveStep lookup) acc).1,
        lookup u = some rec ∧ rec.enabled = 1) := by
  intro l
  induction l with
  | nil => intro acc u h; cases h
  | cons s ss ih =>
    intro acc u h
    rw [List.foldl_cons]
    rcases List.mem_cons.mp h with h | h
    · subst h
      cases hl : lookup u with
      | none =>
        left
        refine ⟨{ symbol := u, status := .SKIPPED, triggered := false,
                  changePercent := none, windowEnd := none,
                  reason := some "symbol_not_found" },
          (resolveFold_mono lookup ss _).2 _ ?_, rfl⟩
        simp only [resolveStep, hl]
        exact List.mem_append_right _ (List.mem_singleton.mpr rfl)
      | some record =>
        by_cases he : record.enabled = 1
        · right
          refine ⟨record, (resolveFold_mono lookup ss _).1 record ?_,
            rfl, he⟩
          simp only [resolveStep, hl]
          rw [if_neg (not_not_intro he)]
          exact List.mem_append_right _ (List.mem_singleton.mpr rfl)
        · left
          refine ⟨{ symbol := u, status := .SKIPPED, triggered := false,
                    changePercent := none, windowEnd := none,
                    reason := some "symbol_disabled" },
            (resolveFold_mono lookup ss _).2 _ ?_, rfl⟩
          simp only [resolveStep, hl]
          rw [if_pos he]
          exact List.mem_append_right _ (List.mem_singleton.mpr rfl)
    · exact ih (resolveStep lookup acc s) u h

/-- A name that resolves to an enabled record lands that record among
the found records of the resolution fold. -/
theorem resolveFold_found (lookup : String → Option SymbolRecord) :
    ∀ (l : List String) (acc : List SymbolRecord × List MonitorResult)
      (u : String) (rec : SymbolRecord),
      u ∈ l → lookup u = some rec → rec.enabled = 1 →
      rec ∈ (l.foldl (resolveStep lookup) acc).1 := by
  intro l
  induction l with
  | nil => intro acc u rec h; cases h
  | cons s ss ih =>
    intro acc u rec h hl he
    rw [List.foldl_cons]
    rcases List.mem_cons.mp h with h | h
    · subst h
      apply (resolveFold_mono lookup ss _).1
      simp only [resolveStep, hl]
      rw [if_neg (not_not_intro he)]
      exact List.mem_append_right _ (List.mem_singleton.mpr rfl)
    · exact ih _ u rec h hl he

/-- The per-symbol result of processSymbol always carries the normalized
symbol name, whatever branch is taken. -/
theorem processSymbol_result_symbol (genKey : String → ℤ → ℚ → String)
    (thresholdDefault : ℚ) (cooldownDefault : ℤ) (nowTime : String)
    (ledger : List AlertRow) (sym : SymbolRecord) (env : SymbolEnv) :
    (processSymbol genKey thresholdDefault cooldownDefault nowTime ledger
      sym env).2.1.symbol = sym.symbol.toUpper := by
  rw [processSymbol]
  repeat' split
  all_goals rfl

/-- The catch branch of processSymbol: a thrown exception surfaces as
FAILED with reason enhanced_fetch_error for that symbol. -/
theorem processSymbol_exception (genKey : String → ℤ → ℚ → String)
    (thresholdDefault : ℚ) (cooldownDefault : ℤ) (nowTime : String)
    (ledger : List AlertRow) (sym : SymbolRecord) (env : SymbolEnv)
    (msg : String) (hf : env.fetch = .error msg) :
    (processSymbol genKey thresholdDefault cooldownDefault nowTime ledger
        sym env).2.1 =
      { symbol := sym.symbol.toUpper, status := .FAILED,
        triggered := false, changePercent := none, windowEnd := none,
        reason := some "enhanced_fetch_error" } := by
  rw [processSymbol, hf]

/-- Every record reaching the legacy monitor loop contributes a result
entry labeled with its normalized symbol; an exception for it makes that
entry FAILED enhanced_fetch_error. -/
theorem runMonitorLoop_covers (genKey : String → ℤ → ℚ → String)
    (thresholdDefault : ℚ) (cooldownDefault : ℤ) (nowTime : String)
    (envs : String → SymbolEnv) :
    ∀ (syms : List SymbolRecord) (ledger : List AlertRow)
      (rec : SymbolRecord), rec ∈ syms →
      ∃ r ∈ (runMonitorLoop genKey thresholdDefault cooldownDefault
        nowTime envs ledger syms).2.1,
        r.symbol = rec.symbol.toUpper ∧
        (∀ msg, (envs rec.symbol.toUpper).fetch = .error msg →
          r.status = .FAILED ∧ r.reason = some "enhanced_fetch_error") := by
  intro syms
  induction syms with
  | nil => intro ledger rec h; cases h
  | cons s ss ih =>
    intro ledger rec h
    rw [runMonitorLoop]
    rcases List.mem_cons.mp h with h | h
    · subst h
      refine ⟨(processSymbol genKey thresholdDefault cooldownDefault
          nowTime ledger rec (envs rec.symbol.toUpper)).2.1,
        List.mem_cons_self _ _,
        processSymbol_result_symbol genKey thresholdDefault cooldownDefault
          nowTime ledger rec (envs rec.symbol.toUpper), ?_⟩
      intro msg hmsg
      rw [processSymbol_exception genKey thresholdDefault cooldownDefault
        nowTime ledger rec (envs rec.symbol.toUpper) msg hmsg]
      exact ⟨rfl, rfl⟩
    · obtain ⟨r, hr, hprops⟩ := ih (processSymbol genKey thresholdDefault
        cooldownDefault nowTime ledger s (envs s.symbol.toUpper)).1 rec h
      exact ⟨r, List.mem_cons_of_mem _ hr, hprops⟩

/-- Every result produced by processTrigger carries the symbol of the
processed record. -/
theorem processTrigger_symbol (windowMinutes cooldownDefault : ℤ)
    (nowTime : String) (ledger : List AlertNewRow) (sym : SymbolRecord)
    (a : MultiAnalysisData) (t : TriggerData)
    (l : List AlertNewRow) (r : MultiResult) (c : ℕ)
    (h : processTrigger windowMinutes cooldownDefault nowTime ledger sym
      a t = .ok (l, r, c)) : r.symbol = sym.symbol := by
  rw [processTrigger] at h
  cases hcc : checkCooldown
      ((t.indicatorCooldown.orElse
        (fun _ => sym.cooldown_minutes)).getD cooldownDefault) with
  | error e =>
    rw [hcc] at h
    simp [Bind.bind, Except.bind] at h
  | ok b =>
    rw [hcc] at h
    simp only [Bind.bind, Except.bind] at h
    cases b with
    | true =>
      simp only [reduceIte] at h
      cases hca : createAlertNew ledger
          { symbol := sym.symbol, indicator_type_id := t.typeId,
            indicator_value := t.indicatorValue,
            threshold_value := t.thresholdValue,
            change_percent := some a.changePercent,
            direction := some t.direction, window_start := a.windowStart,
            window_end := a.windowEnd, window_minutes := windowMinutes,
            idempotency_key := generateIdempotencyKeyNew sym.symbol t.name
              a.windowEnd t.thresholdValue t.op,
            status := .SKIPPED, response_code := none,
            response_body := none, created_at := nowTime } with
      | error e => rw [hca] at h; simp at h
      | ok p =>
        rw [hca] at h
        simp only [Except.ok.injEq, Prod.mk.injEq] at h
        rw [← h.2.1]
    | false =>
      simp only [Bool.false_eq_true, if_false] at h
      cases hfx : findAlertNewByIdempotency ledger
          (generateIdempotencyKeyNew sym.symbol t.name a.windowEnd
            t.thresholdValue t.op) with
      | some ex =>
        rw [hfx] at h
        simp only [Except.ok.injEq, Prod.mk.injEq] at h
        rw [← h.2.1]
      | none =>
        rw [hfx] at h
        cases hca : createAlertNew ledger
            { symbol := sym.symbol, indicator_type_id := t.typeId,
              indicator_value := t.indicatorValue,
              threshold_value := t.thresholdValue,
              change_percent := some a.changePercent,
              direction := some t.direction, window_start := a.windowStart,
              window_end := a.windowEnd, window_minutes := windowMinutes,
              idempotency_key := generateIdempotencyKeyNew sym.symbol
                t.name a.windowEnd t.thresholdValue t.op,
              status := if t.webhookSuccess then .SENT else .FAILED,
              response_code := t.webhookStatus,
              response_body := t.webhookBody,
              created_at := nowTime } with
        | error e => rw [hca] at h; simp at h
        | ok p =>
          rw [hca] at h
          simp only [Except.ok.injEq, Prod.mk.injEq] at h
          rw [← h.2.1]

/-- Every entry pushed by the multi delivery loop carries the processed
record's symbol. -/
theorem processTriggersLoop_symbols (windowMinutes cooldownDefault : ℤ)
    (nowTime : String) (sym : SymbolRecord) (a : MultiAnalysisData) :
    ∀ (ts : List TriggerData) (ledger : List AlertNewRow)
      (r : MultiResult),
      r ∈ (processTriggersLoop windowMinutes cooldownDefault nowTime sym a
        ledger ts).2.1 → r.symbol = sym.symbol := by
  intro ts
  induction ts with
  | nil =>
    intro ledger r h
    simp [processTriggersLoop] at h
  | cons t ts ih =>
    intro ledger r h
    rw [processTriggersLoop] at h
    cases hpt : processTrigger windowMinutes cooldownDefault nowTime
        ledger sym a t with
    | error e =>
      rw [hpt] at h
      simp only [List.mem_singleton] at h
      rw [h]
      rfl
    | ok res =>
      rw [hpt] at h
      rcases List.mem_cons.mp h with h | h
      · rw [h]
        exact processTrigger_symbol windowMinutes cooldownDefault nowTime
          ledger sym a t res.1 res.2.1 res.2.2
          (by rw [hpt])
      · exact ih res.1 r h

/-- C4: the legacy monitor returns an entry for every requested symbol
(first conjunct; the hypothesis states that getSymbol answers rows whose
normalized name is the queried name, which the storage layer enforces by
uppercasing on write and querying by exact name); an exception while
processing one enabled symbol surfaces as a FAILED
enhanced_fetch_error entry for that symbol while every other requested
symbol keeps its own entry (second conjunct together with the first);
and the multi-indicator monitor always pushes at least one entry per
processed symbol, each labeled with that symbol, with an exception
surfacing as its FAILED monitor_error entry (third conjunct). -/
theorem monitor_completeness_isolation (genKey : String → ℤ → ℚ → String)
    (lookup : String → Option SymbolRecord) (envs : String → SymbolEnv)
    (thresholdDefault : ℚ) (cooldownDefault : ℤ) (nowTime : String) :
    (∀ (ledger : List AlertRow) (requested : List String) (s : String),
      (∀ n rc, lookup n = some rc → rc.symbol.toUpper = n) →
      s ∈ requested →
      ∃ r ∈ (runMonitor genKey lookup envs thresholdDefault
        cooldownDefault nowTime ledger requested).2.1,
        r.symbol = s.toUpper) ∧
    (∀ (ledger : List AlertRow) (requested : List String) (s : String)
       (rec : SymbolRecord) (msg : String),
      (∀ n rc, lookup n = some rc → rc.symbol.toUpper = n) →
      s ∈ requested → lookup s.toUpper = some rec → rec.enabled = 1 →
      (envs s.toUpper).fetch = .error msg →
      ∃ r ∈ (runMonitor genKey lookup envs thresholdDefault
        cooldownDefault nowTime ledger requested).2.1,
        r.symbol = s.toUpper ∧ r.status = .FAILED ∧
        r.reason = some "enhanced_fetch_error") ∧
    (∀ (windowMinutes cooldownDefault2 : ℤ) (nowTime2 : String)
       (ledgerNew : List AlertNewRow) (sym : SymbolRecord)
       (env : MultiSymbolEnv),
      (processSymbolMulti windowMinutes cooldownDefault2 nowTime2
        ledgerNew sym env).2.1 ≠ [] ∧
      (∀ r ∈ (processSymbolMulti windowMinutes cooldownDefault2 nowTime2
        ledgerNew sym env).2.1, r.symbol = sym.symbol) ∧
      (∀ msg, env.fetch = .error msg →
        (processSymbolMulti windowMinutes cooldownDefault2 nowTime2
          ledgerNew sym env).2.1 = [multiFailedResult sym])) := by
  refine ⟨?_, ?_, ?_⟩
  · intro ledger requested s hlk hs
    have hu : s.toUpper ∈ uniqueFirst (requested.map String.toUpper) :=
      (mem_uniqueFirst _ _).mpr (List.mem_map_of_mem String.toUpper hs)
    rcases resolveFold_covers lookup
        (uniqueFirst (requested.map String.toUpper)) ([], []) s.toUpper hu
      with ⟨m, hm, hsym⟩ | ⟨rec, hrec, hlkup, hen⟩
    · exact ⟨m, List.mem_append_left _ hm, hsym⟩
    · obtain ⟨r, hr, hrsym, _⟩ := runMonitorLoop_covers genKey
        thresholdDefault cooldownDefault nowTime envs
        (resolveSymbols lookup requested).1 ledger rec hrec
      refine ⟨r, List.mem_append_right _ hr, ?_⟩
      rw [hrsym, hlk _ _ hlkup]
  · intro ledger requested s rec msg hlk hs hlkup hen hferr
    have hu : s.toUpper ∈ uniqueFirst (requested.map String.toUpper) :=
      (mem_uniqueFirst _ _).mpr (List.mem_map_of_mem String.toUpper hs)
    have hrec : rec ∈ (resolveSymbols lookup requested).1 :=
      resolveFold_found lookup _ ([], []) s.toUpper rec hu hlkup hen
    obtain ⟨r, hr, hrsym, herr⟩ := runMonitorLoop_covers genKey
      thresholdDefault cooldownDefault nowTime envs
      (resolveSymbols lookup requested).1 ledger rec hrec
    have hsymu : rec.symbol.toUpper = s.toUpper := hlk _ _ hlkup
    have hfail := herr msg (by rw [hsymu]; exact hferr)
    exact ⟨r, List.mem_append_right _ hr,
      by rw [hrsym, hsymu], hfail.1, hfail.2⟩
  · intro windowMinutes cooldownDefault2 nowTime2 ledgerNew sym env
    refine ⟨?_, ?_, ?_⟩
    · rw [processSymbolMulti]
      split
      · simp
      · simp
      · split
        · simp
        · rw [processTriggersLoop]
          split
          · simp
          · simp
    · intro r hr
      rw [processSymbolMulti] at hr
      split at hr
      · rw [List.mem_singleton] at hr
        rw [hr]
        rfl
      · rw [List.mem_singleton] at hr
        rw [hr]
      · split at hr
        · rw [List.mem_singleton] at hr
          rw [hr]
        · exact processTriggersLoop_symbols windowMinutes cooldownDefault2
            nowTime2 sym _ _ ledgerNew r hr
    · intro msg hmsg
      rw [processSymbolMulti, hmsg]

/-- Witness for C4: one requested symbol BTCUSDT whose candle fetch
throws: the legacy run still returns an entry for it, FAILED with
enhanced_fetch_error, and the multi-indicator run returns its FAILED
monitor_error entry. -/
theorem monitor_completeness_isolation_witness :
    (∃ r ∈ (runMonitor (fun _ _ _ => "K")
        (fun n => if n = ("BTCUSDT" : String).toUpper then
          some (⟨"BTCUSDT", 1, none, none, none⟩ : SymbolRecord) else none)
        (fun _ => ⟨.error "boom", true, none, none⟩) 2 10 "t1" []
        ["BTCUSDT"]).2.1, r.symbol = ("BTCUSDT" : String).toUpper) ∧
    (∃ r ∈ (runMonitor (fun _ _ _ => "K")
        (fun n => if n = ("BTCUSDT" : String).toUpper then
          some (⟨"BTCUSDT", 1, none, none, none⟩ : SymbolRecord) else none)
        (fun _ => ⟨.error "boom", true, none, none⟩) 2 10 "t1" []
        ["BTCUSDT"]).2.1,
      r.symbol = ("BTCUSDT" : String).toUpper ∧ r.status = .FAILED ∧
      r.reason = some "enhanced_fetch_error") ∧
    (processSymbolMulti 5 10 "t1" [] ⟨"BTCUSDT", 1, none, none, none⟩
      ⟨.error "boom"⟩).2.1 =
      [multiFailedResult ⟨"BTCUSDT", 1, none, none, none⟩] := by
  have hlk : ∀ n rc, (fun n => if n = ("BTCUSDT" : String).toUpper then
      some (⟨"BTCUSDT", 1, none, none, none⟩ : SymbolRecord) else none) n =
      some rc → rc.symbol.toUpper = n := by
    intro n rc h
    dsimp only at h
    by_cases hn : n = ("BTCUSDT" : String).toUpper
    · rw [if_pos hn] at h
      simp only [Option.some.injEq] at h
      rw [← h, hn]
    · rw [if_neg hn] at h
      exact absurd h (by simp)
  refine ⟨?_, ?_, ?_⟩
  · exact (monitor_completeness_isolation (fun _ _ _ => "K")
      (fun n => if n = ("BTCUSDT" : String).toUpper then
        some (⟨"BTCUSDT", 1, none, none, none⟩ : SymbolRecord) else none)
      (fun _ => ⟨.error "boom", true, none, none⟩) 2 10 "t1").1 []
      ["BTCUSDT"] "BTCUSDT" hlk (by simp)
  · exact (monitor_completeness_isolation (fun _ _ _ => "K")
      (fun n => if n = ("BTCUSDT" : String).toUpper then
        some (⟨"BTCUSDT", 1, none, none, none⟩ : SymbolRecord) else none)
      (fun _ => ⟨.error "boom", true, none, none⟩) 2 10 "t1").2.1 []
      ["BTCUSDT"] "BTCUSDT" ⟨"BTCUSDT", 1, none, none, none⟩ "boom" hlk
      (by simp) (if_pos rfl) rfl rfl
  · exact ((monitor_completeness_isolation (fun _ _ _ => "K")
      (fun n => if n = ("BTCUSDT" : String).toUpper then
        some (⟨"BTCUSDT", 1, none, none, none⟩ : SymbolRecord) else none)
      (fun _ => ⟨.error "boom", true, none, none⟩) 2 10 "t1").2.2 5 10
      "t1" [] ⟨"BTCUSDT", 1, none, none, none⟩ ⟨.error "boom"⟩).2.2 "boom"
      rfl

end MarketAlert
